import Mathlib

/-!
# wave_charger.c: the MAX8998 charge controller of the Samsung Wave

A shallow embedding of `drivers/power/wave_charger.c`.  Every handler of the
driver becomes a function from the driver state to the driver state.  What the
outside world answers during one handler invocation (what the PMIC returns on
the I2C bus, the elapsed-realtime clock, whether a power-off hook is installed)
is collected in `platform` and passed in explicitly.

Conventions
* `u32` fields are naturals; a C `int` stored into one goes through
  `u32_of_int`, and `x &= ~FLAG` is `x &&& u32_not FLAG`.
* `unsigned long` is 32 bits wide (the driver targets the 32-bit ARM S5PC110);
  the one sum stored into `discharging_time` is reduced modulo 2^32.
* One handler invocation sees one answer per register and one clock reading.
* Wake locks, `power_supply_changed` notifications, the mutex and the log
  output have no influence on the values below and are left out.
* Values of kernel headers that are not part of the driver file are either
  parameters (`max8998_private`) or the fixed values of the kernel `enum`s.
-/

namespace WaveCharger

/-! ## Constants defined in wave_charger.c -/

/-- Source name `TOTAL_CHARGING_TIME`: 6 hours, in seconds. -/
def TOTAL_CHARGING_TIME : Nat := 6 * 60 * 60
/-- Source name `TOTAL_RECHARGING_TIME`: 1.5 hours, in seconds. -/
def TOTAL_RECHARGING_TIME : Nat := 90 * 60

/-- Source name `FAST_POLL`: one minute. -/
def FAST_POLL : Int := 1 * 60
/-- Source name `SLOW_POLL`: ten minutes. -/
def SLOW_POLL : Int := 10 * 60

def DISCONNECT_BAT_FULL : Nat := 0x1
def DISCONNECT_TEMP_OVERHEAT : Nat := 0x2
def DISCONNECT_TEMP_FREEZE : Nat := 0x4
def DISCONNECT_OVER_TIME : Nat := 0x8

/-- The four temperature thresholds (tenths of a degree C) chosen by the
`#if defined (CONFIG_SAMSUNG_GALAXYS) ...` block. -/
structure temp_profile where
  HIGH_BLOCK_TEMP : Int
  HIGH_RECOVER_TEMP : Int
  LOW_BLOCK_TEMP : Int
  LOW_RECOVER_TEMP : Int
  deriving DecidableEq, Repr

/-- The `#else` branch: the profile the Wave is built with. -/
def default_profile : temp_profile :=
  { HIGH_BLOCK_TEMP := 500, HIGH_RECOVER_TEMP := 420, LOW_BLOCK_TEMP := 0, LOW_RECOVER_TEMP := 20 }

/-- The Galaxy S / Captivate branch of the `#if`. -/
def galaxys_profile : temp_profile :=
  { HIGH_BLOCK_TEMP := 630, HIGH_RECOVER_TEMP := 580, LOW_BLOCK_TEMP := -40, LOW_RECOVER_TEMP := 10 }

/-! ## Constants of kernel headers that are not part of the driver file -/

/-- Status values of the `enum` in `linux/power_supply.h`. -/
def POWER_SUPPLY_STATUS_UNKNOWN : Nat := 0
def POWER_SUPPLY_STATUS_CHARGING : Nat := 1
def POWER_SUPPLY_STATUS_DISCHARGING : Nat := 2
def POWER_SUPPLY_STATUS_NOT_CHARGING : Nat := 3
def POWER_SUPPLY_STATUS_FULL : Nat := 4

/-- Health values of the `enum` in `linux/power_supply.h`. -/
def POWER_SUPPLY_HEALTH_UNKNOWN : Nat := 0
def POWER_SUPPLY_HEALTH_GOOD : Nat := 1
def POWER_SUPPLY_HEALTH_OVERHEAT : Nat := 2
def POWER_SUPPLY_HEALTH_DEAD : Nat := 3
def POWER_SUPPLY_HEALTH_COLD : Nat := 6

def POWER_SUPPLY_TECHNOLOGY_LION : Nat := 2

/-- Error number `EINVAL` of `errno.h`. -/
def EINVAL : Int := 22

/-- The properties of `enum power_supply_property` the driver switches on;
every other member of the enum is `POWER_SUPPLY_PROP_OTHER`. -/
inductive power_supply_property
  | POWER_SUPPLY_PROP_STATUS
  | POWER_SUPPLY_PROP_HEALTH
  | POWER_SUPPLY_PROP_PRESENT
  | POWER_SUPPLY_PROP_TEMP
  | POWER_SUPPLY_PROP_ONLINE
  | POWER_SUPPLY_PROP_CAPACITY
  | POWER_SUPPLY_PROP_TECHNOLOGY
  | POWER_SUPPLY_PROP_OTHER (n : Nat)
  deriving DecidableEq, Repr

/-- The `enum cable_type_t` of `mach/battery.h`. -/
inductive cable_type_t
  | CABLE_TYPE_NONE
  | CABLE_TYPE_USB
  | CABLE_TYPE_AC
  deriving DecidableEq, Repr

/-- The PMIC registers the driver touches (`MAX8998_REG_*`). -/
inductive max8998_reg
  | MAX8998_REG_IRQ1
  | MAX8998_REG_IRQ3
  | MAX8998_REG_STATUS2
  | MAX8998_REG_CHGR1
  | MAX8998_REG_CHGR2
  deriving DecidableEq, Repr

/-- Bit positions and masks of `linux/mfd/max8998-private.h`.  The header is
not part of the driver file, so its values are a parameter of the model. -/
structure max8998_private where
  MAX8998_MASK_VDCIN : Nat
  MAX8998_SHIFT_CHGEN : Nat
  MAX8998_MASK_CHGEN : Nat
  MAX8998_SHIFT_TOPOFF : Nat
  MAX8998_SHIFT_RSTR : Nat
  MAX8998_SHIFT_ICHG : Nat
  MAX8998_SHIFT_ESAFEOUT : Nat
  MAX8998_SHIFT_FT : Nat
  deriving DecidableEq, Repr

/-- The values the vendor header gives these names; used for concrete runs. -/
def max8998_header : max8998_private :=
  { MAX8998_MASK_VDCIN := 0x20, MAX8998_SHIFT_CHGEN := 0, MAX8998_MASK_CHGEN := 0x1,
    MAX8998_SHIFT_TOPOFF := 5, MAX8998_SHIFT_RSTR := 3, MAX8998_SHIFT_ICHG := 0,
    MAX8998_SHIFT_ESAFEOUT := 6, MAX8998_SHIFT_FT := 4 }

/-! ## Machine integers and kernel time -/

/-- Conversion of a C `int` to `u32` / 32-bit `unsigned long`. -/
def u32_of_int (v : Int) : Nat := (v % 4294967296).toNat

/-- Bitwise complement of a flag, as a 32-bit word: `~x`. -/
def u32_not (x : Nat) : Nat := 4294967295 ^^^ x

/-- Conversion of a C `int` to `bool`. -/
def bool_of_int (v : Int) : Bool := decide (v ≠ 0)

/-- Promotion of a C `bool` to `int`. -/
def int_of_bool (b : Bool) : Int := if b then 1 else 0

/-- Kernel `ktime_t`: a signed count of nanoseconds. -/
abbrev ktime_t := Int

def NSEC_PER_SEC : Int := 1000000000

/-- Kernel `ktime_set(secs, nsecs)`. -/
def ktime_set (secs : Int) (nsecs : Int) : ktime_t := secs * NSEC_PER_SEC + nsecs

/-- Kernel `ktime_add(a, b)`. -/
def ktime_add (a b : ktime_t) : ktime_t := a + b

/-- A `struct timespec` as `ktime_to_timespec(alarm_get_elapsed_realtime())`
delivers it: the time since boot, whose `tv_sec` is a non-negative 32-bit
`long`. -/
structure timespec where
  tv_sec : Fin 2147483648
  tv_nsec : Fin 1000000000
  deriving DecidableEq, Repr

/-- The `ktime_t` a `timespec` reading was converted from. -/
def timespec_to_ktime (ts : timespec) : ktime_t :=
  ktime_set (ts.tv_sec.val : Int) (ts.tv_nsec.val : Int)

/-! ## Data model -/

/-- The `struct battery_info` of the driver. -/
structure battery_info where
  batt_temp : Nat
  batt_health : Nat
  dis_reason : Nat
  batt_percentage : Nat
  charging_status : Nat
  batt_is_full : Bool
  deriving DecidableEq, Repr

/-- The `struct chg_data` of the driver, without the device pointers, power-supply descriptors,
wake locks and mutex.  `bat_work` is true while the work item is pending on
`monitor_wqueue`; `alarm` is the range last handed to `alarm_start_range`. -/
structure chg_data where
  bat_work : Bool
  alarm : Option (ktime_t × ktime_t)
  bat_info : battery_info
  cable_status : cable_type_t
  charging : Bool
  set_charge_timeout : Bool
  present : Int
  timestamp : Int
  set_batt_full : Int
  discharging_time : Nat
  slow_poll : Int
  last_poll : ktime_t
  deriving DecidableEq, Repr

/-- One write the driver issues on the I2C bus. -/
inductive i2c_op
  | update_reg (reg : max8998_reg) (val : Nat) (mask : Nat)
  | write_reg (reg : max8998_reg) (val : Nat)
  deriving DecidableEq, Repr

/-- The driver instance together with the file-level global
`lpm_charging_mode`.  `power_off` records that `pm_power_off()` was called;
`i2c_ops` records the bus writes issued by the latest run of
`max8998_charging_control`, in order. -/
structure driver where
  chg : chg_data
  lpm_charging_mode : Bool
  power_off : Bool
  i2c_ops : List i2c_op
  deriving DecidableEq, Repr

/-- What the outside world answers during one handler invocation.
`status2`, `irq1`, `irq3` are the return value and the byte delivered by
`max8998_read_reg` for that register; `chgr1_ret` and `chgr2_ret` are the
return values of a write or update of CHGR1 and CHGR2; `now` is the reading of
the elapsed-realtime clock; `pm_power_off` tells whether that hook is set. -/
structure platform where
  status2 : Int × Nat
  irq1 : Int × Nat
  irq3 : Int × Nat
  chgr1_ret : Int
  chgr2_ret : Int
  now : timespec
  pm_power_off : Bool
  deriving DecidableEq, Repr

/-! ## The handlers -/

/-- Source name `max8998_check_vdcin`: on a failed read the negative `ret` is returned
through the `bool` return type. -/
def max8998_check_vdcin (k : max8998_private) (w : platform) : Bool :=
  if w.status2.1 < 0 then bool_of_int w.status2.1
  else decide (w.status2.2 &&& k.MAX8998_MASK_VDCIN ≠ 0)

/-- Source name `s3c_bat_set_property`: returns the error code and the new state. -/
def s3c_bat_set_property (psp : power_supply_property) (val : Int) (d : driver) :
    Int × driver :=
  let queue (c : chg_data) : Int × driver := (0, { d with chg := { c with bat_work := true } })
  match psp with
  | .POWER_SUPPLY_PROP_STATUS =>
    queue { d.chg with bat_info := { d.chg.bat_info with charging_status := u32_of_int val } }
  | .POWER_SUPPLY_PROP_HEALTH =>
    queue { d.chg with bat_info := { d.chg.bat_info with batt_health := u32_of_int val } }
  | .POWER_SUPPLY_PROP_PRESENT =>
    queue { d.chg with present := val }
  | .POWER_SUPPLY_PROP_TEMP =>
    queue { d.chg with bat_info := { d.chg.bat_info with batt_temp := u32_of_int val } }
  | .POWER_SUPPLY_PROP_CAPACITY =>
    queue { d.chg with bat_info := { d.chg.bat_info with batt_percentage := u32_of_int val } }
  | _ => (-EINVAL, d)

/-- Source name `s3c_bat_discharge_reason`: the evaluator of the reason mask.  The C
function updates `chg` in place, statement by statement; here every statement
is one `let`, and `r1` .. `r7` are the successive values of
`chg->bat_info.dis_reason`. -/
def s3c_bat_discharge_reason (p : temp_profile) (w : platform) (c : chg_data) : chg_data :=
  let discharge_reason := c.bat_info.dis_reason &&& 0xf
  let set_batt_full : Int := if c.bat_info.batt_percentage ≥ 100 then 1 else c.set_batt_full
  let batt_is_full : Bool :=
    if c.bat_info.batt_percentage ≥ 100 then true else c.bat_info.batt_is_full
  let r1 :=
    if discharge_reason &&& DISCONNECT_BAT_FULL ≠ 0 ∧ c.bat_info.batt_percentage < 100 then
      c.bat_info.dis_reason &&& u32_not DISCONNECT_BAT_FULL
    else c.bat_info.dis_reason
  let r2 :=
    if discharge_reason &&& DISCONNECT_TEMP_OVERHEAT ≠ 0 ∧
        c.bat_info.batt_temp ≤ u32_of_int p.HIGH_RECOVER_TEMP then
      r1 &&& u32_not DISCONNECT_TEMP_OVERHEAT
    else r1
  let r3 :=
    if discharge_reason &&& DISCONNECT_TEMP_FREEZE ≠ 0 ∧
        c.bat_info.batt_temp ≥ u32_of_int p.LOW_RECOVER_TEMP then
      r2 &&& u32_not DISCONNECT_TEMP_FREEZE
    else r2
  let r4 :=
    if discharge_reason &&& DISCONNECT_OVER_TIME ≠ 0 ∧ c.bat_info.batt_percentage < 100 then
      r3 &&& u32_not DISCONNECT_OVER_TIME
    else r3
  let r5 := if set_batt_full ≠ 0 then r4 ||| DISCONNECT_BAT_FULL else r4
  let r6 :=
    if c.bat_info.batt_health ≠ POWER_SUPPLY_HEALTH_GOOD then
      r5 ||| (if c.bat_info.batt_health = POWER_SUPPLY_HEALTH_OVERHEAT
              then DISCONNECT_TEMP_OVERHEAT else DISCONNECT_TEMP_FREEZE)
    else r5
  let r7 :=
    if c.discharging_time ≠ 0 ∧ w.now.tv_sec.val > c.discharging_time then
      r6 ||| DISCONNECT_OVER_TIME
    else r6
  { c with
    set_batt_full := set_batt_full,
    set_charge_timeout :=
      if c.discharging_time ≠ 0 ∧ w.now.tv_sec.val > c.discharging_time then true
      else c.set_charge_timeout,
    bat_info := { c.bat_info with batt_is_full := batt_is_full, dis_reason := r7 } }

/-- Source name `max8998_charging_control`: programs the charger registers from
`chg->charging` and `chg->cable_status`; returns 0 or the first negative
return value of the bus. -/
def max8998_charging_control (k : max8998_private) (w : platform) (d : driver) :
    Int × driver :=
  if d.chg.charging = false then
    let op := i2c_op.update_reg .MAX8998_REG_CHGR2 (1 <<< k.MAX8998_SHIFT_CHGEN) k.MAX8998_MASK_CHGEN
    (if w.chgr2_ret < 0 then w.chgr2_ret else 0, { d with i2c_ops := [op] })
  else
    let op1 :=
      if d.chg.cable_status = .CABLE_TYPE_AC then
        i2c_op.write_reg .MAX8998_REG_CHGR1
          ((2 <<< k.MAX8998_SHIFT_TOPOFF) ||| (3 <<< k.MAX8998_SHIFT_RSTR) |||
            (5 <<< k.MAX8998_SHIFT_ICHG))
      else
        i2c_op.write_reg .MAX8998_REG_CHGR1
          ((6 <<< k.MAX8998_SHIFT_TOPOFF) ||| (3 <<< k.MAX8998_SHIFT_RSTR) |||
            (2 <<< k.MAX8998_SHIFT_ICHG))
    if w.chgr1_ret < 0 then (w.chgr1_ret, { d with i2c_ops := [op1] })
    else
      let op2 := i2c_op.write_reg .MAX8998_REG_CHGR2
        ((2 <<< k.MAX8998_SHIFT_ESAFEOUT) ||| (2 <<< k.MAX8998_SHIFT_FT) |||
          (0 <<< k.MAX8998_SHIFT_CHGEN))
      (if w.chgr2_ret < 0 then w.chgr2_ret else 0, { d with i2c_ops := [op1, op2] })

/-- Source name `s3c_cable_status_update`: the decision engine.  Returns 0, or the
negative error of the register programming (the `err` label), with the state
as it stands at the `return`. -/
def s3c_cable_status_update (k : max8998_private) (w : platform) (d : driver) :
    Int × driver :=
  if max8998_check_vdcin k w = true then
    if d.chg.bat_info.dis_reason ≠ 0 then
      let r := max8998_charging_control k w { d with chg := { d.chg with charging := false } }
      if r.1 < 0 then (r.1, r.2)
      else
        (0, { r.2 with chg :=
          { r.2.chg with
            bat_info := { r.2.chg.bat_info with
              charging_status :=
                if r.2.chg.bat_info.batt_is_full = true then POWER_SUPPLY_STATUS_FULL
                else POWER_SUPPLY_STATUS_NOT_CHARGING },
            discharging_time := 0,
            set_batt_full := 0 } })
    else
      let d1 : driver :=
        if d.chg.discharging_time = 0 then
          { d with chg := { d.chg with discharging_time :=
              if d.chg.bat_info.batt_is_full = true ∨ d.chg.set_charge_timeout = true then
                (w.now.tv_sec.val + TOTAL_RECHARGING_TIME) % 4294967296
              else (w.now.tv_sec.val + TOTAL_CHARGING_TIME) % 4294967296 } }
        else d
      let r := max8998_charging_control k w { d1 with chg := { d1.chg with charging := true } }
      if r.1 < 0 then (r.1, r.2)
      else
        (0, { r.2 with chg :=
          { r.2.chg with
            bat_info := { r.2.chg.bat_info with
              charging_status :=
                if r.2.chg.bat_info.batt_is_full = true then POWER_SUPPLY_STATUS_FULL
                else POWER_SUPPLY_STATUS_CHARGING } } })
  else
    let r := max8998_charging_control k w { d with chg := { d.chg with charging := false } }
    if r.1 < 0 then (r.1, r.2)
    else
      let c : chg_data :=
        { r.2.chg with
          bat_info := { r.2.chg.bat_info with
            charging_status := POWER_SUPPLY_STATUS_DISCHARGING,
            batt_is_full := false,
            dis_reason := 0 },
          set_charge_timeout := false,
          set_batt_full := 0,
          discharging_time := 0 }
      (0, { r.2 with chg := c,
                     power_off := if r.2.lpm_charging_mode = true ∧ w.pm_power_off = true
                                  then true else r.2.power_off })

/-- Source name `max8998_set_cable`: the cable-detector callback. -/
def max8998_set_cable (k : max8998_private) (w : platform) (status : cable_type_t)
    (d : driver) : driver :=
  let d1 : driver := { d with chg := { d.chg with cable_status := status } }
  let d2 : driver :=
    if d1.lpm_charging_mode = true ∧ int_of_bool (max8998_check_vdcin k w) ≠ 1 ∧
        w.pm_power_off = true then
      { d1 with power_off := true }
    else d1
  let r := s3c_cable_status_update k w d2
  { r.2 with chg := { r.2.chg with bat_work := true } }

/-- Source name `s3c_program_alarm`: the range handed to `alarm_start_range`. -/
def s3c_program_alarm (c : chg_data) (seconds : Int) : chg_data :=
  let low_interval := ktime_set (seconds - 10) 0
  let slack := ktime_set 20 0
  let next := ktime_add c.last_poll low_interval
  { c with alarm := some (next, ktime_add next slack) }

/-- Source name `s3c_bat_work`: one tick.  The work item is taken off the queue by the
workqueue before the function runs. -/
def s3c_bat_work (k : max8998_private) (p : temp_profile) (w : platform) (d : driver) :
    driver :=
  let d0 : driver := { d with chg := { d.chg with bat_work := false } }
  let d1 : driver := { d0 with chg := s3c_bat_discharge_reason p w d0.chg }
  let r := s3c_cable_status_update k w d1
  if r.1 < 0 then r.2
  else
    let c : chg_data :=
      { r.2.chg with last_poll := timespec_to_ktime w.now,
                     timestamp := (w.now.tv_sec.val : Int) }
    { r.2 with chg := s3c_program_alarm c FAST_POLL }

/-- Source name `max8998_int_work_func`: the threaded handler of the PMIC interrupt. -/
def max8998_int_work_func (w : platform) (d : driver) : driver :=
  if w.irq1.1 < 0 then d
  else if w.irq3.1 < 0 then d
  else
    let c : chg_data :=
      if w.irq3.2 &&& 0x4 ≠ 0 ∨ w.irq3.1 ≠ 0 then
        { d.chg with set_batt_full := 1,
                     bat_info := { d.chg.bat_info with batt_is_full := true } }
      else d.chg
    { d with chg := { c with bat_work := true } }

/-- The state `max8998_charger_probe` leaves behind when it succeeds: the
zeroed allocation with the assignments of the probe, the first poll time, the
boot-mode flag that `check_lpm_charging_mode` reads from `S5P_INFORM5` (with
its power-off request when booted for charging without VDC-in), and the work
item queued. -/
def max8998_charger_probe (k : max8998_private) (w : platform) (inform5 : Nat) : driver :=
  { chg :=
      { bat_work := true,
        alarm := none,
        bat_info :=
          { batt_temp := 100,
            batt_health := POWER_SUPPLY_HEALTH_GOOD,
            dis_reason := 0,
            batt_percentage := 50,
            charging_status := 0,
            batt_is_full := false },
        cable_status := .CABLE_TYPE_NONE,
        charging := false,
        set_charge_timeout := false,
        present := 1,
        timestamp := 0,
        set_batt_full := 0,
        discharging_time := 0,
        slow_poll := 0,
        last_poll := timespec_to_ktime w.now },
    lpm_charging_mode := decide (inform5 ≠ 0),
    power_off :=
      if inform5 ≠ 0 ∧ int_of_bool (max8998_check_vdcin k w) ≠ 1 ∧ w.pm_power_off = true
      then true else false,
    i2c_ops := [] }

/-! ## The decision engine in two halves -/

/-- The part of `s3c_cable_status_update` that runs before the registers are
programmed: the charging flag and, on the charge branch, the Deadline. -/
def cable_status_before (k : max8998_private) (w : platform) (c : chg_data) : chg_data :=
  if max8998_check_vdcin k w = true then
    if c.bat_info.dis_reason ≠ 0 then { c with charging := false }
    else
      { c with
        charging := true,
        discharging_time :=
          if c.discharging_time = 0 then
            if c.bat_info.batt_is_full = true ∨ c.set_charge_timeout = true then
              (w.now.tv_sec.val + TOTAL_RECHARGING_TIME) % 4294967296
            else (w.now.tv_sec.val + TOTAL_CHARGING_TIME) % 4294967296
          else c.discharging_time }
  else { c with charging := false }

/-- The part of `s3c_cable_status_update` that runs after the registers were
programmed without error. -/
def cable_status_after (k : max8998_private) (w : platform) (c : chg_data) : chg_data :=
  if max8998_check_vdcin k w = true then
    if c.bat_info.dis_reason ≠ 0 then
      { c with
        bat_info := { c.bat_info with
          charging_status :=
            if c.bat_info.batt_is_full = true then POWER_SUPPLY_STATUS_FULL
            else POWER_SUPPLY_STATUS_NOT_CHARGING },
        discharging_time := 0,
        set_batt_full := 0 }
    else
      { c with
        bat_info := { c.bat_info with
          charging_status :=
            if c.bat_info.batt_is_full = true then POWER_SUPPLY_STATUS_FULL
            else POWER_SUPPLY_STATUS_CHARGING } }
  else
    { c with
      bat_info := { c.bat_info with
        charging_status := POWER_SUPPLY_STATUS_DISCHARGING,
        batt_is_full := false,
        dis_reason := 0 },
      set_charge_timeout := false,
      set_batt_full := 0,
      discharging_time := 0 }

/-! ## The two halves of a tick -/

/-- The controller state of a tick after `s3c_bat_discharge_reason` and before
`s3c_cable_status_update`. -/
def tick_reason (p : temp_profile) (w : platform) (d : driver) : chg_data :=
  s3c_bat_discharge_reason p w { d.chg with bat_work := false }

/-- The value `ret` that `s3c_bat_work` gets back from
`s3c_cable_status_update`. -/
def tick_ret (k : max8998_private) (p : temp_profile) (w : platform) (d : driver) : Int :=
  (s3c_cable_status_update k w { d with chg := tick_reason p w d }).1

/-! ## The remaining entry points: sysfs attributes, supply queries, suspend -/

/-- Values of the anonymous `enum` at the top of the file. -/
def CHARGING_MODE_BOOTING : Int := 0
def CHARGING_STATUS : Int := 1
def BATT_TEMP_CHECK : Int := 2
def BATT_FULL_CHECK : Int := 3
def BATT_PERCENTAGE : Int := 4
def BATT_TEMP : Int := 5

/-- Position of the attribute `charging_mode_booting` in `s3c_battery_attrs[]`,
that is the value of `attr - s3c_battery_attrs` for it. -/
def attr_charging_mode_booting : Int := 0

/-- Position of the attribute `batt_full_check` in `s3c_battery_attrs[]`: the
array has two entries and this is the second. -/
def attr_batt_full_check : Int := 1

/-- Source name `s3c_bat_store_attrs`.  `off` is `attr - s3c_battery_attrs`;
`scanned` is what the `sscanf` of one `%d` delivered: `some x` when it
returned 1, `none` when the text is not a number; `count` is the length of the
write.  Returns `ret` and the new state. -/
def s3c_bat_store_attrs (off : Int) (scanned : Option Int) (count : Int) (d : driver) :
    Int × driver :=
  let r : Int × driver :=
    if off = CHARGING_MODE_BOOTING then
      match scanned with
      | some x => (count, { d with lpm_charging_mode := bool_of_int x })
      | none => (0, d)
    else if off = BATT_FULL_CHECK then
      match scanned with
      | some x =>
        (count, { d with chg := { d.chg with
          bat_info := { d.chg.bat_info with batt_is_full := bool_of_int x } } })
      | none => (0, d)
    else (-EINVAL, d)
  (r.1, { r.2 with chg := { r.2.chg with bat_work := true } })

/-- Source name `s3c_usb_get_property`: returns the error code and the value
left in `val->intval`, which is `val` when nothing is stored. -/
def s3c_usb_get_property (k : max8998_private) (w : platform) (psp : power_supply_property)
    (val : Int) (d : driver) : Int × Int :=
  if psp ≠ .POWER_SUPPLY_PROP_ONLINE then (-EINVAL, val)
  else
    (0, int_of_bool
      (decide (d.chg.cable_status = .CABLE_TYPE_USB) && max8998_check_vdcin k w))

/-- Source name `s3c_ac_get_property`: returns the error code and the value
left in `val->intval`, which is `val` when nothing is stored. -/
def s3c_ac_get_property (k : max8998_private) (w : platform) (psp : power_supply_property)
    (val : Int) (d : driver) : Int × Int :=
  if psp ≠ .POWER_SUPPLY_PROP_ONLINE then (-EINVAL, val)
  else
    (0, int_of_bool
      (decide (d.chg.cable_status = .CABLE_TYPE_AC) && max8998_check_vdcin k w))

/-- Source name `max8998_charger_suspend` (the `prepare` callback): returns 0
and the new state. -/
def max8998_charger_suspend (d : driver) : Int × driver :=
  if d.chg.charging = false then
    (0, { d with chg := { s3c_program_alarm d.chg SLOW_POLL with slow_poll := 1 } })
  else (0, d)

/-- Source name `max8998_charger_resume` (the `complete` callback). -/
def max8998_charger_resume (d : driver) : driver :=
  if d.chg.slow_poll ≠ 0 then
    { d with chg := { s3c_program_alarm d.chg FAST_POLL with slow_poll := 0 } }
  else d

/-! ## Event sequences -/

/-- The inbound events of the controller. -/
inductive event
  | set_property (psp : power_supply_property) (val : Int)
  | work (w : platform)
  | set_cable (w : platform) (status : cable_type_t)
  | irq (w : platform)

/-- One event applied to the driver. -/
def step (k : max8998_private) (p : temp_profile) (e : event) (d : driver) : driver :=
  match e with
  | .set_property psp val => (s3c_bat_set_property psp val d).2
  | .work w => s3c_bat_work k p w d
  | .set_cable w status => max8998_set_cable k w status d
  | .irq w => max8998_int_work_func w d

/-- A sequence of events applied in order. -/
def run (k : max8998_private) (p : temp_profile) (es : List event) (d : driver) : driver :=
  es.foldl (fun acc e => step k p e acc) d

/-- The event is a fact write, or a tick whose VDC-in check answers true. -/
def vdc_present_event (k : max8998_private) : event → Bool
  | .set_property _ _ => true
  | .work w => max8998_check_vdcin k w
  | .set_cable _ _ => false
  | .irq _ => false

/-! ## Concrete platforms and states used in the worked examples -/

/-- A reading of the clock at a whole number of seconds since boot. -/
def at_sec (n : Fin 2147483648) : timespec := { tv_sec := n, tv_nsec := 0 }

/-- A platform on which every bus transfer succeeds, STATUS2 reads `status2`,
the interrupt registers read 0 and no power-off hook is installed. -/
def bus_ok (status2 : Nat) (now : timespec) : platform :=
  { status2 := (0, status2), irq1 := (0, 0), irq3 := (0, 0), chgr1_ret := 0, chgr2_ret := 0,
    now := now, pm_power_off := false }

/-- The controller as probed at boot, second 0, in normal (not charging-only)
boot mode. -/
def probed : driver := max8998_charger_probe max8998_header (bus_ok 0x20 (at_sec 0)) 0

/-- Scenario A: the freshly probed controller with 50 %, 25.0 C and an AC
cable reported. -/
def scenario_a (inform5 : Nat) (boot : timespec) : driver :=
  { max8998_charger_probe max8998_header (bus_ok 0x20 boot) inform5 with
    chg := { (max8998_charger_probe max8998_header (bus_ok 0x20 boot) inform5).chg with
      cable_status := .CABLE_TYPE_AC,
      bat_info :=
        { (max8998_charger_probe max8998_header (bus_ok 0x20 boot) inform5).chg.bat_info with
          batt_temp := 250, batt_percentage := 50 } } }

/-- Scenario A after a temperature of 60.0 C was written. -/
def hot_a : driver :=
  (s3c_bat_set_property .POWER_SUPPLY_PROP_TEMP 600 (scenario_a 0 (at_sec 0))).2

/-- The probed controller after: AC cable with VDC-in, 100 % written, one
tick, 90 % written.  The latch `batt_is_full` is set, the percentage is 90. -/
def full_then_90 : driver :=
  run max8998_header default_profile
    [ .set_cable (bus_ok 0x20 (at_sec 1000)) .CABLE_TYPE_AC,
      .set_property .POWER_SUPPLY_PROP_CAPACITY 100,
      .work (bus_ok 0x20 (at_sec 1060)),
      .set_property .POWER_SUPPLY_PROP_CAPACITY 90 ]
    probed

/-- The probed controller after the AC cable was reported at second 1000 with
VDC-in present: it charges, with the Deadline at second 22600. -/
def charging_since_1000 : driver :=
  run max8998_header default_profile
    [ .set_cable (bus_ok 0x20 (at_sec 1000)) .CABLE_TYPE_AC ]
    probed

/-- Scenario A after the health was written as Overheat and the evaluator
ran once. -/
def overheated_a : driver :=
  { scenario_a 0 (at_sec 0) with
    chg := s3c_bat_discharge_reason default_profile (bus_ok 0x20 (at_sec 1000))
      (s3c_bat_set_property .POWER_SUPPLY_PROP_HEALTH 2 (scenario_a 0 (at_sec 0))).2.chg }

/-- A platform that answers like `bus_ok`, except that every write to the
charger registers fails with -5 (`-EIO`). -/
def bus_write_fails (status2 : Nat) (now : timespec) : platform :=
  { bus_ok status2 now with chgr1_ret := -5, chgr2_ret := -5 }

/-- A platform on which the read of STATUS2 fails with -5 (`-EIO`) and
delivers no data, while everything else answers like `bus_ok`. -/
def bus_read_fails (now : timespec) : platform :=
  { bus_ok 0 now with status2 := (-5, 0) }

/-- The probed controller after a USB cable was reported while the PMIC saw
no VDC-in. -/
def usb_reported : driver :=
  max8998_set_cable max8998_header (bus_ok 0 (at_sec 5)) .CABLE_TYPE_USB probed

/-- The probed controller after an AC cable was reported while the PMIC saw
no VDC-in. -/
def ac_reported : driver :=
  max8998_set_cable max8998_header (bus_ok 0 (at_sec 5)) .CABLE_TYPE_AC probed

/-- A platform on which the interrupt registers read without error and IRQ3
has the bit 0x4 set. -/
def bus_irq_full (now : timespec) : platform :=
  { bus_ok 0x20 now with irq3 := (0, 0x4) }

/-- Scenario A after: health written Overheat, one tick (Overheat enters the
mask), health written Good again and a temperature of -5.0 C written. -/
def overheat_then_minus_5 : driver :=
  run max8998_header default_profile
    [ .set_property .POWER_SUPPLY_PROP_HEALTH 2,
      .work (bus_ok 0x20 (at_sec 1000)),
      .set_property .POWER_SUPPLY_PROP_HEALTH 1,
      .set_property .POWER_SUPPLY_PROP_TEMP (-50) ]
    (scenario_a 0 (at_sec 0))

/-- Scenario A after: health written Cold, one tick (Freeze enters the mask),
health written Good again and a temperature of -5.0 C written. -/
def cold_then_minus_5 : driver :=
  run max8998_header default_profile
    [ .set_property .POWER_SUPPLY_PROP_HEALTH 6,
      .work (bus_ok 0x20 (at_sec 1000)),
      .set_property .POWER_SUPPLY_PROP_HEALTH 1,
      .set_property .POWER_SUPPLY_PROP_TEMP (-50) ]
    (scenario_a 0 (at_sec 0))

end WaveCharger

/-!
# sema_autobr.c: the auto-brightness smoother

A shallow embedding of `step_update` and `instant_update` of
`drivers/video/samsung/sema_autobr.c`.  The two file-level structures are the
state; the values handed to `bl_update_brightness` are recorded in order.
`msleep` only passes time and is left out.  `unsigned int` is 32 bits wide.
-/

namespace SemaAutobr

/-- The `struct sema_ab_tuners` of the driver. -/
structure sema_ab_tuners where
  min_brightness : Nat
  max_brightness : Nat
  instant_upd_threshold : Nat
  max_lux : Nat
  effect_delay_ms : Int
  block_fw : Nat
  deriving DecidableEq, Repr

/-- The initial value of `sa_tuners`: the `DEF_*` constants. -/
def sa_tuners_default : sema_ab_tuners :=
  { min_brightness := 15, max_brightness := 255, instant_upd_threshold := 30,
    max_lux := 2900, effect_delay_ms := 0, block_fw := 1 }

/-- The `struct sema_ab_info` of the driver. -/
structure sema_ab_info where
  current_br : Nat
  update_br : Nat
  sum_update_br : Nat
  cnt : Nat
  delay : Nat
  deriving DecidableEq, Repr

/-- The two file-level variables, and the arguments of the calls of
`bl_update_brightness` so far, oldest first. -/
structure autobr where
  sa_tuners : sema_ab_tuners
  sa_info : sema_ab_info
  backlight : List Int
  deriving DecidableEq, Repr

/-- Conversion of an `unsigned int` to the `int` parameter of
`bl_update_brightness`. -/
def int_of_uint (v : Nat) : Int :=
  if v % 4294967296 < 2147483648 then ((v % 4294967296 : Nat) : Int)
  else ((v % 4294967296 : Nat) : Int) - 4294967296

/-- The call `bl_update_brightness(sa_info.current_br)`; its return value is
never used. -/
def bl_update_brightness (s : autobr) : autobr :=
  { s with backlight := s.backlight ++ [int_of_uint s.sa_info.current_br] }

/-- The statement `sa_info.current_br++` on an `unsigned int`. -/
def current_br_incr (s : autobr) : autobr :=
  { s with sa_info := { s.sa_info with
      current_br := (s.sa_info.current_br + 1) % 4294967296 } }

/-- The statement `sa_info.current_br--` on an `unsigned int`: 0 wraps to
`UINT_MAX`. -/
def current_br_decr (s : autobr) : autobr :=
  { s with sa_info := { s.sa_info with
      current_br :=
        if s.sa_info.current_br = 0 then 4294967295 else s.sa_info.current_br - 1 } }

/-- The loop `while (sa_info.current_br++ < sa_info.update_br)` with its body;
the first argument bounds the number of times the condition is tested.  The
condition compares the value before the increment, and the increment happens
also when the comparison fails. -/
def fade_in : Nat → autobr → autobr
  | 0, s => s
  | n + 1, s =>
    if s.sa_info.current_br < s.sa_info.update_br then
      fade_in n (bl_update_brightness (current_br_incr s))
    else current_br_incr s

/-- The loop `while (sa_info.current_br-- > sa_info.update_br)` with its body;
the first argument bounds the number of times the condition is tested. -/
def fade_out : Nat → autobr → autobr
  | 0, s => s
  | n + 1, s =>
    if s.sa_info.current_br > s.sa_info.update_br then
      fade_out n (bl_update_brightness (current_br_decr s))
    else current_br_decr s

/-- Source name `instant_update`.  A loop that starts `g` steps away from the
target tests its condition `g + 1` times. -/
def instant_update (s : autobr) : autobr :=
  if s.sa_info.current_br < s.sa_info.update_br then
    if s.sa_tuners.effect_delay_ms ≥ 0 then
      fade_in (s.sa_info.update_br - s.sa_info.current_br + 1) s
    else
      bl_update_brightness
        { s with sa_info := { s.sa_info with current_br := s.sa_info.update_br } }
  else
    if s.sa_tuners.effect_delay_ms ≥ 0 then
      fade_out (s.sa_info.current_br - s.sa_info.update_br + 1) s
    else
      bl_update_brightness
        { s with sa_info := { s.sa_info with current_br := s.sa_info.update_br } }

/-- Source name `step_update`. -/
def step_update (s : autobr) : autobr :=
  bl_update_brightness
    (if s.sa_info.current_br < s.sa_info.update_br then current_br_incr s
     else current_br_decr s)

/-- The smoother as `autobr_init` leaves it (`current_br` = 120) with a
target of 160 computed by the handler: 40 steps away, above the instant-update
threshold of 30. -/
def brighten_120_160 : autobr :=
  { sa_tuners := sa_tuners_default,
    sa_info := { current_br := 120, update_br := 160, sum_update_br := 0, cnt := 0, delay := 0 },
    backlight := [] }

/-- The smoother at brightness 160 with a target of 120. -/
def dim_160_120 : autobr :=
  { sa_tuners := sa_tuners_default,
    sa_info := { current_br := 160, update_br := 120, sum_update_br := 0, cnt := 0, delay := 0 },
    backlight := [] }

end SemaAutobr

namespace WaveCharger


/-! ## Register programming leaves the controller state alone -/

theorem charging_control_chg (k : max8998_private) (w : platform) (d : driver) :
    (max8998_charging_control k w d).2.chg = d.chg := by
  unfold max8998_charging_control
  split_ifs <;> rfl

theorem charging_control_lpm (k : max8998_private) (w : platform) (d : driver) :
    (max8998_charging_control k w d).2.lpm_charging_mode = d.lpm_charging_mode := by
  unfold max8998_charging_control
  split_ifs <;> rfl

theorem charging_control_power_off (k : max8998_private) (w : platform) (d : driver) :
    (max8998_charging_control k w d).2.power_off = d.power_off := by
  unfold max8998_charging_control
  split_ifs <;> rfl

/-- The return value and the bus writes depend on the state only through
`charging` and `cable_status`. -/
theorem charging_control_congr (k : max8998_private) (w : platform) (d e : driver)
    (hc : d.chg.charging = e.chg.charging) (hs : d.chg.cable_status = e.chg.cable_status) :
    (max8998_charging_control k w d).1 = (max8998_charging_control k w e).1 ∧
    (max8998_charging_control k w d).2.i2c_ops = (max8998_charging_control k w e).2.i2c_ops := by
  unfold max8998_charging_control
  rw [hc, hs]
  split_ifs <;> exact ⟨rfl, rfl⟩

/-- Register programming never returns a positive value. -/
theorem charging_control_ret_nonpos (k : max8998_private) (w : platform) (d : driver) :
    (max8998_charging_control k w d).1 ≤ 0 := by
  unfold max8998_charging_control
  split_ifs <;> simp <;> omega

/-! ## The decision engine: decide, program, commit -/

theorem cable_update_eq (k : max8998_private) (w : platform) (d : driver) :
    s3c_cable_status_update k w d =
      (let r := max8998_charging_control k w { d with chg := cable_status_before k w d.chg }
       if r.1 < 0 then (r.1, r.2)
       else (0, { r.2 with
          chg := cable_status_after k w r.2.chg,
          power_off :=
            if max8998_check_vdcin k w = false ∧ r.2.lpm_charging_mode = true ∧
                w.pm_power_off = true then true else r.2.power_off })) := by
  unfold s3c_cable_status_update cable_status_before
  by_cases hv : max8998_check_vdcin k w = true
  · by_cases hr : d.chg.bat_info.dis_reason = 0
    · by_cases h0 : d.chg.discharging_time = 0
      · simp [hv, hr, h0, cable_status_after, charging_control_chg]
      · simp [hv, hr, h0, cable_status_after, charging_control_chg]
    · simp [hv, hr, cable_status_after, charging_control_chg]
  · simp [hv, cable_status_after, charging_control_chg]

/-- The engine returns 0 or a negative error. -/
theorem cable_update_ret (k : max8998_private) (w : platform) (d : driver) :
    (s3c_cable_status_update k w d).1 = 0 ∨ (s3c_cable_status_update k w d).1 < 0 := by
  rw [cable_update_eq]
  by_cases h : (max8998_charging_control k w
      { d with chg := cable_status_before k w d.chg }).1 < 0
  · exact Or.inr (by simp only [if_pos h]; exact h)
  · exact Or.inl (by simp only [if_neg h])

/-- On success the controller state is the committed decision. -/
theorem cable_update_chg_ok (k : max8998_private) (w : platform) (d : driver)
    (hret : (s3c_cable_status_update k w d).1 = 0) :
    (s3c_cable_status_update k w d).2.chg =
      cable_status_after k w (cable_status_before k w d.chg) := by
  rw [cable_update_eq] at hret ⊢
  by_cases h : (max8998_charging_control k w
      { d with chg := cable_status_before k w d.chg }).1 < 0
  · simp only [if_pos h] at hret
    omega
  · simp only [if_neg h, charging_control_chg]

/-- On a programming error the controller state is the uncommitted decision. -/
theorem cable_update_chg_err (k : max8998_private) (w : platform) (d : driver)
    (hret : (s3c_cable_status_update k w d).1 < 0) :
    (s3c_cable_status_update k w d).2.chg = cable_status_before k w d.chg := by
  rw [cable_update_eq] at hret ⊢
  by_cases h : (max8998_charging_control k w
      { d with chg := cable_status_before k w d.chg }).1 < 0
  · simp only [if_pos h, charging_control_chg]
  · simp only [if_neg h] at hret
    omega

/-- The bus writes of the engine are those of the register programming. -/
theorem cable_update_ops (k : max8998_private) (w : platform) (d : driver) :
    (s3c_cable_status_update k w d).2.i2c_ops =
      (max8998_charging_control k w
        { d with chg := cable_status_before k w d.chg }).2.i2c_ops := by
  rw [cable_update_eq]
  by_cases h : (max8998_charging_control k w
      { d with chg := cable_status_before k w d.chg }).1 < 0
  · simp only [if_pos h]
  · simp only [if_neg h]

/-- The return value of the engine in terms of the register programming. -/
theorem cable_update_fst (k : max8998_private) (w : platform) (d : driver) :
    (s3c_cable_status_update k w d).1 =
      (max8998_charging_control k w { d with chg := cable_status_before k w d.chg }).1 := by
  have hle := charging_control_ret_nonpos k w { d with chg := cable_status_before k w d.chg }
  rw [cable_update_eq]
  by_cases h : (max8998_charging_control k w
      { d with chg := cable_status_before k w d.chg }).1 < 0
  · simp only [if_pos h]
  · simp only [if_neg h]
    omega

/-- The engine never changes the boot-mode flag. -/
theorem cable_update_lpm (k : max8998_private) (w : platform) (d : driver) :
    (s3c_cable_status_update k w d).2.lpm_charging_mode = d.lpm_charging_mode := by
  rw [cable_update_eq]
  by_cases h : (max8998_charging_control k w
      { d with chg := cable_status_before k w d.chg }).1 < 0
  · simp only [if_pos h, charging_control_lpm]
  · simp only [if_neg h, charging_control_lpm]

/-! ## Claims about the decision engine -/

/-- C1: after `s3c_cable_status_update` returns success, a non-empty reason
mask (as it stands on return, or as it stood on entry) means `charging` is
false, and VDC present with the mask empty on entry means `charging` is
true. -/
theorem cable_update_mask_decides_charging (k : max8998_private) (w : platform) (d : driver)
    (hret : (s3c_cable_status_update k w d).1 = 0) :
    ((s3c_cable_status_update k w d).2.chg.bat_info.dis_reason ≠ 0 →
      (s3c_cable_status_update k w d).2.chg.charging = false) ∧
    (d.chg.bat_info.dis_reason ≠ 0 →
      (s3c_cable_status_update k w d).2.chg.charging = false) ∧
    (max8998_check_vdcin k w = true → d.chg.bat_info.dis_reason = 0 →
      (s3c_cable_status_update k w d).2.chg.charging = true) := by
  rw [cable_update_chg_ok k w d hret]
  unfold cable_status_after cable_status_before
  by_cases hv : max8998_check_vdcin k w = true
  · by_cases hr : d.chg.bat_info.dis_reason = 0
    · simp [hv, hr]
    · simp [hv, hr]
  · simp [hv]

theorem cable_update_mask_decides_charging_witness :
    (s3c_cable_status_update max8998_header (bus_ok 0x20 (at_sec 1000))
        (scenario_a 0 (at_sec 0))).1 = 0 ∧
    (s3c_cable_status_update max8998_header (bus_ok 0x20 (at_sec 1000))
        (scenario_a 0 (at_sec 0))).2.chg.charging = true :=
  ⟨by decide,
   (cable_update_mask_decides_charging max8998_header (bus_ok 0x20 (at_sec 1000))
      (scenario_a 0 (at_sec 0)) (by decide)).2.2 (by decide) (by decide)⟩

/-- C3: with VDC absent and the registers programmed without error,
`s3c_cable_status_update` leaves charging off, status Discharging, and
`batt_is_full`, `set_charge_timeout`, `set_batt_full`, `dis_reason` and
`discharging_time` all reset. -/
theorem cable_update_vdc_absent_resets (k : max8998_private) (w : platform) (d : driver)
    (hv : max8998_check_vdcin k w = false)
    (hret : (s3c_cable_status_update k w d).1 = 0) :
    (s3c_cable_status_update k w d).2.chg.charging = false ∧
    (s3c_cable_status_update k w d).2.chg.bat_info.charging_status =
      POWER_SUPPLY_STATUS_DISCHARGING ∧
    (s3c_cable_status_update k w d).2.chg.bat_info.batt_is_full = false ∧
    (s3c_cable_status_update k w d).2.chg.set_charge_timeout = false ∧
    (s3c_cable_status_update k w d).2.chg.set_batt_full = 0 ∧
    (s3c_cable_status_update k w d).2.chg.bat_info.dis_reason = 0 ∧
    (s3c_cable_status_update k w d).2.chg.discharging_time = 0 := by
  rw [cable_update_chg_ok k w d hret]
  simp [cable_status_after, cable_status_before, hv]


theorem cable_update_vdc_absent_resets_witness :
    max8998_check_vdcin max8998_header (bus_ok 0 (at_sec 2000)) = false ∧
    (s3c_cable_status_update max8998_header (bus_ok 0 (at_sec 2000))
        (s3c_cable_status_update max8998_header (bus_ok 0x20 (at_sec 1000))
          (scenario_a 0 (at_sec 0))).2).1 = 0 ∧
    (s3c_cable_status_update max8998_header (bus_ok 0 (at_sec 2000))
        (s3c_cable_status_update max8998_header (bus_ok 0x20 (at_sec 1000))
          (scenario_a 0 (at_sec 0))).2).2.chg.discharging_time = 0 :=
  ⟨by decide, by decide,
   (cable_update_vdc_absent_resets max8998_header (bus_ok 0 (at_sec 2000))
      (s3c_cable_status_update max8998_header (bus_ok 0x20 (at_sec 1000))
        (scenario_a 0 (at_sec 0))).2 (by decide) (by decide)).2.2.2.2.2.2⟩

/-- C5: with VDC present, the reason mask empty and the registers programmed
without error, `s3c_cable_status_update` turns charging on, reports Full when
`batt_is_full` and Charging otherwise, starts an unset Deadline at now + 5400 s
when `batt_is_full` or `set_charge_timeout` holds and at now + 21600 s
otherwise, and leaves a running Deadline alone.  From the probed state with
50 %, 25.0 C and an AC cable this gives charging, Charging, now + 21600 s. -/
theorem cable_update_charge_branch (k : max8998_private) (w : platform) (d : driver)
    (hv : max8998_check_vdcin k w = true)
    (hr : d.chg.bat_info.dis_reason = 0)
    (hret : (s3c_cable_status_update k w d).1 = 0) :
    (s3c_cable_status_update k w d).2.chg.charging = true ∧
    (s3c_cable_status_update k w d).2.chg.bat_info.charging_status =
      (if d.chg.bat_info.batt_is_full = true then POWER_SUPPLY_STATUS_FULL
       else POWER_SUPPLY_STATUS_CHARGING) ∧
    (d.chg.discharging_time = 0 →
      (d.chg.bat_info.batt_is_full = true ∨ d.chg.set_charge_timeout = true) →
      (s3c_cable_status_update k w d).2.chg.discharging_time = w.now.tv_sec.val + 5400) ∧
    (d.chg.discharging_time = 0 →
      ¬ (d.chg.bat_info.batt_is_full = true ∨ d.chg.set_charge_timeout = true) →
      (s3c_cable_status_update k w d).2.chg.discharging_time = w.now.tv_sec.val + 21600) ∧
    (d.chg.discharging_time ≠ 0 →
      (s3c_cable_status_update k w d).2.chg.discharging_time = d.chg.discharging_time) ∧
    (∀ inform5 boot, d = scenario_a inform5 boot →
      (s3c_cable_status_update k w d).2.chg.charging = true ∧
      (s3c_cable_status_update k w d).2.chg.bat_info.charging_status =
        POWER_SUPPLY_STATUS_CHARGING ∧
      (s3c_cable_status_update k w d).2.chg.discharging_time =
        w.now.tv_sec.val + 6 * 60 * 60) := by
  have hnow := w.now.tv_sec.isLt
  rw [cable_update_chg_ok k w d hret]
  simp only [cable_status_after, cable_status_before, hv, hr, if_true, ne_eq,
    not_true_eq_false, if_false, TOTAL_RECHARGING_TIME, TOTAL_CHARGING_TIME]
  refine ⟨trivial, trivial, ?_, ?_, ?_, ?_⟩
  · intro h0 hf
    rw [if_pos h0, if_pos hf]
    omega
  · intro h0 hf
    rw [if_pos h0, if_neg hf]
    omega
  · intro h0
    rw [if_neg h0]
  · intro inform5 boot hd
    subst hd
    refine ⟨trivial, ?_, ?_⟩
    · simp [scenario_a, max8998_charger_probe]
    · simp [scenario_a, max8998_charger_probe]
      omega

theorem cable_update_charge_branch_witness :
    max8998_check_vdcin max8998_header (bus_ok 0x20 (at_sec 1000)) = true ∧
    (scenario_a 0 (at_sec 0)).chg.bat_info.dis_reason = 0 ∧
    (s3c_cable_status_update max8998_header (bus_ok 0x20 (at_sec 1000))
        (scenario_a 0 (at_sec 0))).1 = 0 ∧
    (s3c_cable_status_update max8998_header (bus_ok 0x20 (at_sec 1000))
        (scenario_a 0 (at_sec 0))).2.chg.charging = true :=
  ⟨by decide, by decide, by decide,
   (cable_update_charge_branch max8998_header (bus_ok 0x20 (at_sec 1000))
      (scenario_a 0 (at_sec 0)) (by decide) (by decide) (by decide)).1⟩

/-- C6: with VDC present, the reason mask non-empty and the registers
programmed without error, `s3c_cable_status_update` turns charging off, reports
Full when `batt_is_full` and NotCharging otherwise, clears the Deadline, and
leaves the reason mask, `batt_is_full` and `set_charge_timeout` as they
were. -/
theorem cable_update_blocked_branch (k : max8998_private) (w : platform) (d : driver)
    (hv : max8998_check_vdcin k w = true)
    (hr : d.chg.bat_info.dis_reason ≠ 0)
    (hret : (s3c_cable_status_update k w d).1 = 0) :
    (s3c_cable_status_update k w d).2.chg.charging = false ∧
    (s3c_cable_status_update k w d).2.chg.bat_info.charging_status =
      (if d.chg.bat_info.batt_is_full = true then POWER_SUPPLY_STATUS_FULL
       else POWER_SUPPLY_STATUS_NOT_CHARGING) ∧
    (s3c_cable_status_update k w d).2.chg.discharging_time = 0 ∧
    (s3c_cable_status_update k w d).2.chg.bat_info.dis_reason = d.chg.bat_info.dis_reason ∧
    (s3c_cable_status_update k w d).2.chg.bat_info.batt_is_full =
      d.chg.bat_info.batt_is_full ∧
    (s3c_cable_status_update k w d).2.chg.set_charge_timeout = d.chg.set_charge_timeout := by
  rw [cable_update_chg_ok k w d hret]
  simp [cable_status_after, cable_status_before, hv, hr]


theorem cable_update_blocked_branch_witness :
    max8998_check_vdcin max8998_header (bus_ok 0x20 (at_sec 1000)) = true ∧
    overheated_a.chg.bat_info.dis_reason ≠ 0 ∧
    (s3c_cable_status_update max8998_header (bus_ok 0x20 (at_sec 1000)) overheated_a).1 = 0 ∧
    (s3c_cable_status_update max8998_header (bus_ok 0x20 (at_sec 1000))
        overheated_a).2.chg.charging = false :=
  ⟨by decide, by decide, by decide,
   (cable_update_blocked_branch max8998_header (bus_ok 0x20 (at_sec 1000)) overheated_a
      (by decide) (by decide) (by decide)).1⟩

/-! ## The cable callback -/

/-- The engine reads the driver only through the controller state. -/
theorem cable_update_congr (k : max8998_private) (w : platform) (d e : driver)
    (h : d.chg = e.chg) :
    (s3c_cable_status_update k w d).1 = (s3c_cable_status_update k w e).1 ∧
    (s3c_cable_status_update k w d).2.chg = (s3c_cable_status_update k w e).2.chg ∧
    (s3c_cable_status_update k w d).2.i2c_ops = (s3c_cable_status_update k w e).2.i2c_ops := by
  have hcc := charging_control_congr k w
    { d with chg := cable_status_before k w d.chg }
    { e with chg := cable_status_before k w e.chg } (by simp [h]) (by simp [h])
  have h1 : (s3c_cable_status_update k w d).1 = (s3c_cable_status_update k w e).1 := by
    rw [cable_update_fst, cable_update_fst]
    exact hcc.1
  refine ⟨h1, ?_, ?_⟩
  · rcases cable_update_ret k w d with h0 | hneg
    · rw [cable_update_chg_ok k w d h0, cable_update_chg_ok k w e (h1 ▸ h0), h]
    · rw [cable_update_chg_err k w d hneg, cable_update_chg_err k w e (h1 ▸ hneg), h]
  · rw [cable_update_ops, cable_update_ops]
    exact hcc.2

/-- The controller state after the cable callback: the engine run on the state
with the new cable type, and the work item queued. -/
theorem set_cable_chg (k : max8998_private) (w : platform) (status : cable_type_t)
    (d : driver) :
    (max8998_set_cable k w status d).chg =
      { (s3c_cable_status_update k w
          { d with chg := { d.chg with cable_status := status } }).2.chg with
        bat_work := true } := by
  unfold max8998_set_cable
  simp only
  split_ifs with h
  · rw [(cable_update_congr k w
      { chg := { d.chg with cable_status := status }, lpm_charging_mode := d.lpm_charging_mode,
        power_off := true, i2c_ops := d.i2c_ops }
      { d with chg := { d.chg with cable_status := status } } rfl).2.1]
  · rfl

/-- With VDC absent the engine succeeds as soon as the CHGR2 update does. -/
theorem cable_update_absent_ret (k : max8998_private) (w : platform) (d : driver)
    (hv : max8998_check_vdcin k w = false) (hok : 0 ≤ w.chgr2_ret) :
    (s3c_cable_status_update k w d).1 = 0 := by
  rw [cable_update_fst]
  unfold max8998_charging_control
  simp only [cable_status_before, hv, Bool.false_eq_true, if_false, if_true]
  rw [if_neg (by omega)]

/-- C4, the claim as written fails: after `max8998_set_cable(AC)` and then
`max8998_set_cable(NONE)` on the probed controller, with the PMIC still
reporting VDC-in during the second call, charging stays on and the Deadline
stays set. -/
theorem set_cable_round_trip_counterexample :
    (max8998_set_cable max8998_header (bus_ok 0x20 (at_sec 1000)) .CABLE_TYPE_NONE
      (max8998_set_cable max8998_header (bus_ok 0x20 (at_sec 1000)) .CABLE_TYPE_AC
        probed)).chg.charging = true ∧
    (max8998_set_cable max8998_header (bus_ok 0x20 (at_sec 1000)) .CABLE_TYPE_NONE
      (max8998_set_cable max8998_header (bus_ok 0x20 (at_sec 1000)) .CABLE_TYPE_AC
        probed)).chg.discharging_time = 22600 ∧
    (max8998_set_cable max8998_header (bus_ok 0x20 (at_sec 1000)) .CABLE_TYPE_NONE
      (max8998_set_cable max8998_header (bus_ok 0x20 (at_sec 1000)) .CABLE_TYPE_AC
        probed)).chg.bat_info.charging_status =
      POWER_SUPPLY_STATUS_CHARGING := by
  decide

/-- C4, amended: `max8998_set_cable(AC)` followed by `max8998_set_cable(NONE)`
leaves the Deadline unset, the reason mask empty, `batt_is_full` and
`set_charge_timeout` false, charging off and status Discharging whenever the
VDC-in check of the second call answers absent and its CHGR2 update does not
fail; the reset follows the VDC-in reading, not the reported cable type. -/
theorem set_cable_round_trip_resets (k : max8998_private) (w1 w2 : platform) (d : driver)
    (hv : max8998_check_vdcin k w2 = false) (hok : 0 ≤ w2.chgr2_ret) :
    (max8998_set_cable k w2 .CABLE_TYPE_NONE
      (max8998_set_cable k w1 .CABLE_TYPE_AC d)).chg.discharging_time = 0 ∧
    (max8998_set_cable k w2 .CABLE_TYPE_NONE
      (max8998_set_cable k w1 .CABLE_TYPE_AC d)).chg.bat_info.dis_reason = 0 ∧
    (max8998_set_cable k w2 .CABLE_TYPE_NONE
      (max8998_set_cable k w1 .CABLE_TYPE_AC d)).chg.bat_info.batt_is_full = false ∧
    (max8998_set_cable k w2 .CABLE_TYPE_NONE
      (max8998_set_cable k w1 .CABLE_TYPE_AC d)).chg.set_charge_timeout = false ∧
    (max8998_set_cable k w2 .CABLE_TYPE_NONE
      (max8998_set_cable k w1 .CABLE_TYPE_AC d)).chg.charging = false ∧
    (max8998_set_cable k w2 .CABLE_TYPE_NONE
      (max8998_set_cable k w1 .CABLE_TYPE_AC d)).chg.bat_info.charging_status =
        POWER_SUPPLY_STATUS_DISCHARGING := by
  rw [set_cable_chg k w2]
  rw [cable_update_chg_ok k w2 _ (cable_update_absent_ret k w2 _ hv hok)]
  simp [cable_status_after, cable_status_before, hv]

theorem set_cable_round_trip_resets_witness :
    max8998_check_vdcin max8998_header (bus_ok 0 (at_sec 2000)) = false ∧
    0 ≤ (bus_ok 0 (at_sec 2000)).chgr2_ret ∧
    (max8998_set_cable max8998_header (bus_ok 0 (at_sec 2000)) .CABLE_TYPE_NONE
      (max8998_set_cable max8998_header (bus_ok 0x20 (at_sec 1000)) .CABLE_TYPE_AC
        probed)).chg.discharging_time = 0 :=
  ⟨by decide, by decide,
   (set_cable_round_trip_resets max8998_header (bus_ok 0x20 (at_sec 1000))
      (bus_ok 0 (at_sec 2000)) probed
      (by decide) (by decide)).1⟩

/-! ## The alarm window -/

/-- C10, the claim as written fails: for `last_poll` = 0 and a delay of 60 s
the requested window is 50 s .. 70 s, so its end is T + 10 s, not T + 20 s. -/
theorem program_alarm_window_counterexample :
    (s3c_program_alarm probed.chg 60).alarm =
      some (ktime_set 50 0, ktime_set 70 0) ∧
    (s3c_program_alarm probed.chg 60).alarm ≠
      some (ktime_set (60 - 10) 0, ktime_set (60 + 20) 0) := by
  decide

/-- C10, amended: `s3c_program_alarm` requests a window measured from
`last_poll`; with T = `last_poll` + `seconds` the earliest wake time is
T - 10 s and the latest is T + 10 s, that is the earliest time plus the 20 s
slack.  Nothing else in the controller state changes. -/
theorem program_alarm_window (c : chg_data) (seconds : Int) :
    (s3c_program_alarm c seconds).alarm =
      some (c.last_poll + ktime_set seconds 0 - ktime_set 10 0,
            c.last_poll + ktime_set seconds 0 + ktime_set 10 0) ∧
    (s3c_program_alarm c seconds).alarm =
      some (c.last_poll + ktime_set seconds 0 - ktime_set 10 0,
            (c.last_poll + ktime_set seconds 0 - ktime_set 10 0) + ktime_set 20 0) ∧
    s3c_program_alarm c seconds = { c with alarm := (s3c_program_alarm c seconds).alarm } := by
  refine ⟨?_, ?_, rfl⟩
  · simp only [s3c_program_alarm, ktime_set, ktime_add, NSEC_PER_SEC]
    congr 2 <;> ring
  · simp only [s3c_program_alarm, ktime_set, ktime_add, NSEC_PER_SEC]
    congr 2 <;> ring


/-! ## Flags of the reason mask, bit by bit -/

/-- A one-bit mask tests exactly that bit. -/
theorem land_two_pow_ne_zero (x j : Nat) : x &&& 2 ^ j ≠ 0 ↔ x.testBit j = true := by
  constructor
  · intro h
    by_contra hb
    apply h
    apply Nat.eq_of_testBit_eq
    intro i
    rw [Nat.testBit_and, Nat.testBit_two_pow, Nat.zero_testBit]
    by_cases hij : j = i
    · subst hij
      simp [hb]
    · simp [hij]
  · intro hb h
    have := congrArg (fun y => Nat.testBit y j) h
    simp [Nat.testBit_two_pow_self, hb] at this

theorem flag_full_iff (x : Nat) : x &&& DISCONNECT_BAT_FULL ≠ 0 ↔ x.testBit 0 = true :=
  land_two_pow_ne_zero x 0

theorem flag_overheat_iff (x : Nat) : x &&& DISCONNECT_TEMP_OVERHEAT ≠ 0 ↔ x.testBit 1 = true :=
  land_two_pow_ne_zero x 1

theorem flag_freeze_iff (x : Nat) : x &&& DISCONNECT_TEMP_FREEZE ≠ 0 ↔ x.testBit 2 = true :=
  land_two_pow_ne_zero x 2

theorem flag_over_time_iff (x : Nat) : x &&& DISCONNECT_OVER_TIME ≠ 0 ↔ x.testBit 3 = true :=
  land_two_pow_ne_zero x 3

/-- A mask with a flag set is not empty. -/
theorem ne_zero_of_flag (x f : Nat) (h : x &&& f ≠ 0) : x ≠ 0 := by
  intro hx
  apply h
  rw [hx, Nat.zero_and]

/-- The bits 0..3 of the constants the evaluator combines the mask with. -/
theorem mask_bits :
    ((u32_not DISCONNECT_BAT_FULL).testBit 0 = false ∧
      (u32_not DISCONNECT_BAT_FULL).testBit 1 = true ∧
      (u32_not DISCONNECT_BAT_FULL).testBit 2 = true ∧
      (u32_not DISCONNECT_BAT_FULL).testBit 3 = true) ∧
    ((u32_not DISCONNECT_TEMP_OVERHEAT).testBit 0 = true ∧
      (u32_not DISCONNECT_TEMP_OVERHEAT).testBit 1 = false ∧
      (u32_not DISCONNECT_TEMP_OVERHEAT).testBit 2 = true ∧
      (u32_not DISCONNECT_TEMP_OVERHEAT).testBit 3 = true) ∧
    ((u32_not DISCONNECT_TEMP_FREEZE).testBit 0 = true ∧
      (u32_not DISCONNECT_TEMP_FREEZE).testBit 1 = true ∧
      (u32_not DISCONNECT_TEMP_FREEZE).testBit 2 = false ∧
      (u32_not DISCONNECT_TEMP_FREEZE).testBit 3 = true) ∧
    ((u32_not DISCONNECT_OVER_TIME).testBit 0 = true ∧
      (u32_not DISCONNECT_OVER_TIME).testBit 1 = true ∧
      (u32_not DISCONNECT_OVER_TIME).testBit 2 = true ∧
      (u32_not DISCONNECT_OVER_TIME).testBit 3 = false) ∧
    (DISCONNECT_BAT_FULL.testBit 0 = true ∧
      DISCONNECT_BAT_FULL.testBit 1 = false ∧
      DISCONNECT_BAT_FULL.testBit 2 = false ∧
      DISCONNECT_BAT_FULL.testBit 3 = false) ∧
    (DISCONNECT_TEMP_OVERHEAT.testBit 0 = false ∧
      DISCONNECT_TEMP_OVERHEAT.testBit 1 = true ∧
      DISCONNECT_TEMP_OVERHEAT.testBit 2 = false ∧
      DISCONNECT_TEMP_OVERHEAT.testBit 3 = false) ∧
    (DISCONNECT_TEMP_FREEZE.testBit 0 = false ∧
      DISCONNECT_TEMP_FREEZE.testBit 1 = false ∧
      DISCONNECT_TEMP_FREEZE.testBit 2 = true ∧
      DISCONNECT_TEMP_FREEZE.testBit 3 = false) ∧
    (DISCONNECT_OVER_TIME.testBit 0 = false ∧
      DISCONNECT_OVER_TIME.testBit 1 = false ∧
      DISCONNECT_OVER_TIME.testBit 2 = false ∧
      DISCONNECT_OVER_TIME.testBit 3 = true) ∧
    (Nat.testBit 15 0 = true ∧ Nat.testBit 15 1 = true ∧ Nat.testBit 15 2 = true ∧ Nat.testBit 15 3 = true) := by
  decide

theorem testBit_ite (C : Prop) [Decidable C] (a b j : Nat) :
    (if C then a else b).testBit j = if C then a.testBit j else b.testBit j := by
  split_ifs <;> rfl

/-- BatteryFull after the evaluator: requested, or the percentage is 100. -/
theorem discharge_reason_full (p : temp_profile) (w : platform) (c : chg_data) :
    (s3c_bat_discharge_reason p w c).bat_info.dis_reason &&& DISCONNECT_BAT_FULL ≠ 0 ↔
      (c.set_batt_full ≠ 0 ∨ c.bat_info.batt_percentage ≥ 100) := by
  simp only [s3c_bat_discharge_reason]
  simp only [flag_full_iff, flag_overheat_iff, flag_freeze_iff, flag_over_time_iff]
  simp only [testBit_ite, Nat.testBit_and, Nat.testBit_or, mask_bits]
  by_cases hp : 100 ≤ c.bat_info.batt_percentage
  · simp [hp]
  · have hp2 : c.bat_info.batt_percentage < 100 := by omega
    by_cases hb : c.bat_info.dis_reason.testBit 0 = true
    · simp [hp, hp2, hb]
    · simp [hp, hp2, hb]

/-- Overheat after the evaluator: the health says so, or the flag was set and
the temperature has not come down to the recovery point. -/
theorem discharge_reason_overheat (p : temp_profile) (w : platform) (c : chg_data) :
    (s3c_bat_discharge_reason p w c).bat_info.dis_reason &&& DISCONNECT_TEMP_OVERHEAT ≠ 0 ↔
      (c.bat_info.batt_health = POWER_SUPPLY_HEALTH_OVERHEAT ∨
        (c.bat_info.dis_reason &&& DISCONNECT_TEMP_OVERHEAT ≠ 0 ∧
          ¬ c.bat_info.batt_temp ≤ u32_of_int p.HIGH_RECOVER_TEMP)) := by
  simp only [s3c_bat_discharge_reason]
  simp only [flag_full_iff, flag_overheat_iff, flag_freeze_iff, flag_over_time_iff]
  simp only [testBit_ite, Nat.testBit_and, Nat.testBit_or, mask_bits]
  by_cases hh : c.bat_info.batt_health = POWER_SUPPLY_HEALTH_OVERHEAT
  · have hg : ¬ POWER_SUPPLY_HEALTH_OVERHEAT = POWER_SUPPLY_HEALTH_GOOD := by decide
    simp [hh, hg]
  · by_cases ht : c.bat_info.batt_temp ≤ u32_of_int p.HIGH_RECOVER_TEMP
    · by_cases hb : c.bat_info.dis_reason.testBit 1 = true
      · simp [hh, ht, hb]
      · simp [hh, ht, hb]
    · by_cases hb : c.bat_info.dis_reason.testBit 1 = true
      · simp [hh, ht, hb]
      · simp [hh, ht, hb]

/-- Freeze after the evaluator: the health is neither Good nor Overheat, or
the flag was set and the temperature has not come up to the recovery point. -/
theorem discharge_reason_freeze (p : temp_profile) (w : platform) (c : chg_data) :
    (s3c_bat_discharge_reason p w c).bat_info.dis_reason &&& DISCONNECT_TEMP_FREEZE ≠ 0 ↔
      ((c.bat_info.batt_health ≠ POWER_SUPPLY_HEALTH_GOOD ∧
          c.bat_info.batt_health ≠ POWER_SUPPLY_HEALTH_OVERHEAT) ∨
        (c.bat_info.dis_reason &&& DISCONNECT_TEMP_FREEZE ≠ 0 ∧
          ¬ c.bat_info.batt_temp ≥ u32_of_int p.LOW_RECOVER_TEMP)) := by
  simp only [s3c_bat_discharge_reason]
  simp only [flag_full_iff, flag_overheat_iff, flag_freeze_iff, flag_over_time_iff]
  simp only [testBit_ite, Nat.testBit_and, Nat.testBit_or, mask_bits]
  by_cases hg : c.bat_info.batt_health = POWER_SUPPLY_HEALTH_GOOD
  · simp [hg]
    by_cases hb : c.bat_info.dis_reason.testBit 2 = true <;>
      by_cases ht : u32_of_int p.LOW_RECOVER_TEMP ≤ c.bat_info.batt_temp <;>
      simp [hb, ht]
  · by_cases hh : c.bat_info.batt_health = POWER_SUPPLY_HEALTH_OVERHEAT
    · simp [hg, hh]
      by_cases hb : c.bat_info.dis_reason.testBit 2 = true <;>
        by_cases ht : u32_of_int p.LOW_RECOVER_TEMP ≤ c.bat_info.batt_temp <;>
        simp [hb, ht]
    · simp [hg, hh]

/-- OverTime after the evaluator: the Deadline has passed, or the flag was set
and the percentage is still 100. -/
theorem discharge_reason_over_time (p : temp_profile) (w : platform) (c : chg_data) :
    (s3c_bat_discharge_reason p w c).bat_info.dis_reason &&& DISCONNECT_OVER_TIME ≠ 0 ↔
      ((c.discharging_time ≠ 0 ∧ w.now.tv_sec.val > c.discharging_time) ∨
        (c.bat_info.dis_reason &&& DISCONNECT_OVER_TIME ≠ 0 ∧
          c.bat_info.batt_percentage ≥ 100)) := by
  simp only [s3c_bat_discharge_reason]
  simp only [flag_full_iff, flag_overheat_iff, flag_freeze_iff, flag_over_time_iff]
  simp only [testBit_ite, Nat.testBit_and, Nat.testBit_or, mask_bits]
  by_cases hd : c.discharging_time ≠ 0 ∧ w.now.tv_sec.val > c.discharging_time
  · simp [hd]
  · by_cases hp : 100 ≤ c.bat_info.batt_percentage
    · have hp2 : ¬ c.bat_info.batt_percentage < 100 := by omega
      simp [hd, hp, hp2]
    · have hp2 : c.bat_info.batt_percentage < 100 := by omega
      by_cases hb : c.bat_info.dis_reason.testBit 3 = true
      · simp [hd, hp, hp2, hb]
      · simp [hd, hp, hp2, hb]


/-! ## What the evaluator leaves alone -/

theorem discharge_reason_is_full (p : temp_profile) (w : platform) (c : chg_data) :
    (s3c_bat_discharge_reason p w c).bat_info.batt_is_full =
      (if c.bat_info.batt_percentage ≥ 100 then true else c.bat_info.batt_is_full) := rfl

theorem discharge_reason_set_batt_full (p : temp_profile) (w : platform) (c : chg_data) :
    (s3c_bat_discharge_reason p w c).set_batt_full =
      (if c.bat_info.batt_percentage ≥ 100 then 1 else c.set_batt_full) := rfl

/-! ## One tick -/

/-- A tick whose register programming failed stops at the uncommitted
decision. -/
theorem bat_work_chg_err (k : max8998_private) (p : temp_profile) (w : platform) (d : driver)
    (h : tick_ret k p w d < 0) :
    (s3c_bat_work k p w d).chg = cable_status_before k w (tick_reason p w d) := by
  have h1 := cable_update_chg_err k w { d with chg := tick_reason p w d } h
  unfold tick_ret tick_reason at h
  unfold tick_reason at h1
  unfold s3c_bat_work
  simp only [if_pos h]
  exact h1

/-- A tick whose register programming succeeded commits the decision, stamps
the poll time and programs the alarm. -/
theorem bat_work_chg_ok (k : max8998_private) (p : temp_profile) (w : platform) (d : driver)
    (h : tick_ret k p w d = 0) :
    (s3c_bat_work k p w d).chg =
      s3c_program_alarm
        { cable_status_after k w (cable_status_before k w (tick_reason p w d)) with
          last_poll := timespec_to_ktime w.now,
          timestamp := (w.now.tv_sec.val : Int) } FAST_POLL := by
  have h1 := cable_update_chg_ok k w { d with chg := tick_reason p w d } h
  unfold tick_ret tick_reason at h
  unfold tick_reason at h1
  unfold s3c_bat_work
  have hn : ¬ (s3c_cable_status_update k w
      { d with chg := s3c_bat_discharge_reason p w { d.chg with bat_work := false } }).1 < 0 := by
    omega
  simp only [if_neg hn]
  rw [h1]
  rfl

/-- The return value seen by a tick is 0 or negative. -/
theorem tick_ret_cases (k : max8998_private) (p : temp_profile) (w : platform) (d : driver) :
    tick_ret k p w d = 0 ∨ tick_ret k p w d < 0 :=
  cable_update_ret k w { d with chg := tick_reason p w d }

/-- With VDC present a tick sets the latch when the percentage is 100 and
otherwise leaves it alone. -/
theorem bat_work_full_of_vdc (k : max8998_private) (p : temp_profile) (w : platform)
    (d : driver) (hv : max8998_check_vdcin k w = true) :
    (s3c_bat_work k p w d).chg.bat_info.batt_is_full =
      (if d.chg.bat_info.batt_percentage ≥ 100 then true else d.chg.bat_info.batt_is_full) := by
  rcases tick_ret_cases k p w d with h | h
  · rw [bat_work_chg_ok k p w d h]
    simp only [s3c_program_alarm, cable_status_after, cable_status_before, hv, if_true]
    split_ifs <;> simp_all [tick_reason, discharge_reason_is_full]
  · rw [bat_work_chg_err k p w d h]
    simp only [cable_status_before, hv, if_true]
    split_ifs <;> simp_all [tick_reason, discharge_reason_is_full]

/-- A fact write never touches the latch. -/
theorem set_property_is_full (psp : power_supply_property) (val : Int) (d : driver) :
    (s3c_bat_set_property psp val d).2.chg.bat_info.batt_is_full =
      d.chg.bat_info.batt_is_full := by
  cases psp <;> rfl

/-- Fact writes and ticks with VDC present keep a set latch set. -/
theorem step_keeps_full (k : max8998_private) (p : temp_profile) (e : event) (d : driver)
    (he : vdc_present_event k e = true) (hf : d.chg.bat_info.batt_is_full = true) :
    (step k p e d).chg.bat_info.batt_is_full = true := by
  cases e with
  | set_property psp val =>
    simp only [step]
    rw [set_property_is_full]
    exact hf
  | work w =>
    simp only [step]
    rw [bat_work_full_of_vdc k p w d he, hf]
    simp
  | set_cable w status => simp [vdc_present_event] at he
  | irq w => simp [vdc_present_event] at he

theorem run_keeps_full (k : max8998_private) (p : temp_profile) (es : List event) :
    ∀ d : driver, (∀ e ∈ es, vdc_present_event k e = true) →
      d.chg.bat_info.batt_is_full = true →
      (run k p es d).chg.bat_info.batt_is_full = true := by
  induction es with
  | nil => intro d _ hf; exact hf
  | cons e es ih =>
    intro d hes hf
    have he := hes e (List.mem_cons_self e es)
    have hrest : ∀ e' ∈ es, vdc_present_event k e' = true :=
      fun e' h' => hes e' (List.mem_cons_of_mem e h')
    exact ih (step k p e d) hrest (step_keeps_full k p e d he hf)

/-- C2: once a tick with VDC present observes a percentage of 100 or more,
`batt_is_full` is true after that tick and after every further sequence of
fact writes and ticks during which VDC stays present, whatever is written; a
fact write never changes the latch, and a tick that turns a set latch off
found VDC absent. -/
theorem full_latch_holds (k : max8998_private) (p : temp_profile) (w : platform)
    (d : driver) (es : List event)
    (hv : max8998_check_vdcin k w = true)
    (hp : d.chg.bat_info.batt_percentage ≥ 100)
    (hes : ∀ e ∈ es, vdc_present_event k e = true) :
    (s3c_bat_work k p w d).chg.bat_info.batt_is_full = true ∧
    (run k p es (s3c_bat_work k p w d)).chg.bat_info.batt_is_full = true ∧
    (∀ (psp : power_supply_property) (val : Int) (s : driver),
      (s3c_bat_set_property psp val s).2.chg.bat_info.batt_is_full =
        s.chg.bat_info.batt_is_full) ∧
    (∀ (w2 : platform) (s : driver), s.chg.bat_info.batt_is_full = true →
      (s3c_bat_work k p w2 s).chg.bat_info.batt_is_full = false →
      max8998_check_vdcin k w2 = false) := by
  have h1 : (s3c_bat_work k p w d).chg.bat_info.batt_is_full = true := by
    rw [bat_work_full_of_vdc k p w d hv, if_pos hp]
  refine ⟨h1, run_keeps_full k p es _ hes h1, set_property_is_full, ?_⟩
  intro w2 s hs hoff
  by_contra hne
  have hv2 : max8998_check_vdcin k w2 = true := by simpa using hne
  rw [bat_work_full_of_vdc k p w2 s hv2, hs] at hoff
  simp at hoff

theorem full_latch_holds_witness :
    max8998_check_vdcin max8998_header (bus_ok 0x20 (at_sec 1060)) = true ∧
    (s3c_bat_set_property .POWER_SUPPLY_PROP_CAPACITY 100
      (scenario_a 0 (at_sec 0))).2.chg.bat_info.batt_percentage ≥ 100 ∧
    (∀ e ∈ [event.set_property .POWER_SUPPLY_PROP_CAPACITY 90,
            event.work (bus_ok 0x20 (at_sec 1120))],
      vdc_present_event max8998_header e = true) ∧
    (run max8998_header default_profile
      [event.set_property .POWER_SUPPLY_PROP_CAPACITY 90,
       event.work (bus_ok 0x20 (at_sec 1120))]
      (s3c_bat_work max8998_header default_profile (bus_ok 0x20 (at_sec 1060))
        (s3c_bat_set_property .POWER_SUPPLY_PROP_CAPACITY 100
          (scenario_a 0 (at_sec 0))).2)).chg.bat_info.batt_is_full = true :=
  ⟨by decide, by decide, by decide,
   (full_latch_holds max8998_header default_profile (bus_ok 0x20 (at_sec 1060))
      (s3c_bat_set_property .POWER_SUPPLY_PROP_CAPACITY 100 (scenario_a 0 (at_sec 0))).2
      [event.set_property .POWER_SUPPLY_PROP_CAPACITY 90,
       event.work (bus_ok 0x20 (at_sec 1120))]
      (by decide) (by decide) (by decide)).2.1⟩


/-! ## Claims about the evaluator -/

/-- C7, the claim as written fails: in `full_then_90` the latch `batt_is_full`
is true, yet the evaluator leaves BatteryFull out of the reason mask, because
the percentage is 90 and `set_batt_full` was consumed by the previous tick. -/
theorem full_latch_alone_counterexample :
    full_then_90.chg.bat_info.batt_is_full = true ∧
    full_then_90.chg.bat_info.batt_percentage = 90 ∧
    full_then_90.chg.set_batt_full = 0 ∧
    (s3c_bat_discharge_reason default_profile (bus_ok 0x20 (at_sec 1120))
      full_then_90.chg).bat_info.dis_reason &&& DISCONNECT_BAT_FULL = 0 := by
  decide

/-- C7, amended: after `s3c_bat_discharge_reason`, BatteryFull is in the
reason mask exactly when `set_batt_full` was non-zero on entry or the
percentage is 100 or more, whatever `batt_is_full` is.  The latch alone does
not set the flag: with `batt_is_full` true, `set_batt_full` zero and the
percentage below 100, BatteryFull is not in the mask after the evaluator. -/
theorem discharge_reason_sets_full (p : temp_profile) (w : platform) (c : chg_data) :
    ((s3c_bat_discharge_reason p w c).bat_info.dis_reason &&& DISCONNECT_BAT_FULL ≠ 0 ↔
      (c.set_batt_full ≠ 0 ∨ c.bat_info.batt_percentage ≥ 100)) ∧
    (c.bat_info.batt_is_full = true → c.set_batt_full = 0 →
      c.bat_info.batt_percentage < 100 →
      (s3c_bat_discharge_reason p w c).bat_info.dis_reason &&& DISCONNECT_BAT_FULL = 0) := by
  refine ⟨discharge_reason_full p w c, ?_⟩
  intro _ hs hp
  by_contra hne
  rcases (discharge_reason_full p w c).mp hne with h | h
  · exact h hs
  · omega

/-- With VDC present the engine leaves the reason mask as the evaluator left
it, whether or not the registers could be programmed. -/
theorem bat_work_mask_of_vdc (k : max8998_private) (p : temp_profile) (w : platform)
    (d : driver) (hv : max8998_check_vdcin k w = true) :
    (s3c_bat_work k p w d).chg.bat_info.dis_reason =
      (tick_reason p w d).bat_info.dis_reason := by
  rcases tick_ret_cases k p w d with h | h
  · rw [bat_work_chg_ok k p w d h]
    simp only [s3c_program_alarm, cable_status_after, cable_status_before, hv, if_true]
    split_ifs <;> rfl
  · rw [bat_work_chg_err k p w d h]
    simp only [cable_status_before, hv, if_true]
    split_ifs <;> rfl

/-- With VDC present and a non-empty mask after the evaluator, a tick turns
charging off, whether or not the registers could be programmed. -/
theorem bat_work_blocked_charging (k : max8998_private) (p : temp_profile) (w : platform)
    (d : driver) (hv : max8998_check_vdcin k w = true)
    (hr : (tick_reason p w d).bat_info.dis_reason ≠ 0) :
    (s3c_bat_work k p w d).chg.charging = false := by
  rcases tick_ret_cases k p w d with h | h
  · rw [bat_work_chg_ok k p w d h]
    simp [s3c_program_alarm, cable_status_after, cable_status_before, hv, hr]
  · rw [bat_work_chg_err k p w d h]
    simp [cable_status_before, hv, hr]

/-- With VDC present and a non-empty mask, the tick succeeds as soon as the
CHGR2 update does. -/
theorem tick_ret_blocked (k : max8998_private) (p : temp_profile) (w : platform)
    (d : driver) (hv : max8998_check_vdcin k w = true)
    (hr : (tick_reason p w d).bat_info.dis_reason ≠ 0) (hok : 0 ≤ w.chgr2_ret) :
    tick_ret k p w d = 0 := by
  unfold tick_ret
  rw [cable_update_fst]
  unfold max8998_charging_control
  simp only [cable_status_before, hv, hr, if_true, ne_eq, not_false_eq_true]
  rw [if_neg (by omega)]

/-- With VDC present, a non-empty mask and the registers programmed, the
status is Full or NotCharging according to the latch. -/
theorem bat_work_blocked_status (k : max8998_private) (p : temp_profile) (w : platform)
    (d : driver) (hv : max8998_check_vdcin k w = true)
    (hr : (tick_reason p w d).bat_info.dis_reason ≠ 0) (hok : 0 ≤ w.chgr2_ret) :
    (s3c_bat_work k p w d).chg.bat_info.charging_status =
      (if (s3c_bat_work k p w d).chg.bat_info.batt_is_full = true
       then POWER_SUPPLY_STATUS_FULL else POWER_SUPPLY_STATUS_NOT_CHARGING) := by
  rw [bat_work_chg_ok k p w d (tick_ret_blocked k p w d hv hr hok)]
  simp [s3c_program_alarm, cable_status_after, cable_status_before, hv, hr]

/-- C8, the claim as written fails: scenario A with 60.0 C written, VDC
present, default profile.  After one tick Overheat is not in the mask and the
controller charges. -/
theorem hot_battery_counterexample :
    hot_a.chg.bat_info.batt_temp = 600 ∧
    (600 : Int) ≥ default_profile.HIGH_BLOCK_TEMP ∧
    (s3c_bat_work max8998_header default_profile (bus_ok 0x20 (at_sec 1000))
      hot_a).chg.bat_info.dis_reason &&& DISCONNECT_TEMP_OVERHEAT = 0 ∧
    (s3c_bat_work max8998_header default_profile (bus_ok 0x20 (at_sec 1000))
      hot_a).chg.charging = true ∧
    (s3c_bat_work max8998_header default_profile (bus_ok 0x20 (at_sec 1000))
      hot_a).chg.bat_info.charging_status = POWER_SUPPLY_STATUS_CHARGING := by
  decide

/-- C8, amended: with VDC present, a tick on a controller whose health is
Overheat leaves Overheat in the reason mask and charging off, and, when the
CHGR2 update does not fail, status NotCharging if the battery is not full.
The temperature alone sets nothing: with health Good a tick never adds
Overheat to a mask that did not hold it. -/
theorem tick_overheat_follows_health (k : max8998_private) (p : temp_profile)
    (w : platform) (d : driver) (hv : max8998_check_vdcin k w = true) :
    (d.chg.bat_info.batt_health = POWER_SUPPLY_HEALTH_OVERHEAT →
      (s3c_bat_work k p w d).chg.bat_info.dis_reason &&& DISCONNECT_TEMP_OVERHEAT ≠ 0 ∧
      (s3c_bat_work k p w d).chg.charging = false ∧
      (0 ≤ w.chgr2_ret → (s3c_bat_work k p w d).chg.bat_info.batt_is_full = false →
        (s3c_bat_work k p w d).chg.bat_info.charging_status =
          POWER_SUPPLY_STATUS_NOT_CHARGING)) ∧
    (d.chg.bat_info.batt_health = POWER_SUPPLY_HEALTH_GOOD →
      d.chg.bat_info.dis_reason &&& DISCONNECT_TEMP_OVERHEAT = 0 →
      (s3c_bat_work k p w d).chg.bat_info.dis_reason &&& DISCONNECT_TEMP_OVERHEAT = 0) := by
  constructor
  · intro hh
    have hflag : (tick_reason p w d).bat_info.dis_reason &&& DISCONNECT_TEMP_OVERHEAT ≠ 0 :=
      (discharge_reason_overheat p w _).mpr (Or.inl hh)
    have hr := ne_zero_of_flag _ _ hflag
    refine ⟨?_, bat_work_blocked_charging k p w d hv hr, ?_⟩
    · rw [bat_work_mask_of_vdc k p w d hv]
      exact hflag
    · intro hok hnf
      rw [bat_work_blocked_status k p w d hv hr hok, hnf]
      simp
  · intro hg h0
    rw [bat_work_mask_of_vdc k p w d hv]
    by_contra hne
    rcases (discharge_reason_overheat p w _).mp hne with h | h
    · have : d.chg.bat_info.batt_health = POWER_SUPPLY_HEALTH_OVERHEAT := h
      rw [hg] at this
      exact absurd this (by decide)
    · exact h.1 h0

theorem tick_overheat_follows_health_witness :
    max8998_check_vdcin max8998_header (bus_ok 0x20 (at_sec 1000)) = true ∧
    (s3c_bat_work max8998_header default_profile (bus_ok 0x20 (at_sec 1000))
      (s3c_bat_set_property .POWER_SUPPLY_PROP_HEALTH 2
        (scenario_a 0 (at_sec 0))).2).chg.charging = false :=
  ⟨by decide,
   ((tick_overheat_follows_health max8998_header default_profile
      (bus_ok 0x20 (at_sec 1000))
      (s3c_bat_set_property .POWER_SUPPLY_PROP_HEALTH 2 (scenario_a 0 (at_sec 0))).2
      (by decide)).1 (by decide)).2.1⟩


/-! ## Two ticks in a row -/

/-- A tick never touches the facts or the cable type. -/
theorem bat_work_frame (k : max8998_private) (p : temp_profile) (w : platform) (d : driver) :
    (s3c_bat_work k p w d).chg.bat_info.batt_percentage = d.chg.bat_info.batt_percentage ∧
    (s3c_bat_work k p w d).chg.bat_info.batt_temp = d.chg.bat_info.batt_temp ∧
    (s3c_bat_work k p w d).chg.bat_info.batt_health = d.chg.bat_info.batt_health ∧
    (s3c_bat_work k p w d).chg.cable_status = d.chg.cable_status := by
  rcases tick_ret_cases k p w d with h | h
  · rw [bat_work_chg_ok k p w d h]
    simp only [s3c_program_alarm, cable_status_after, cable_status_before]
    split_ifs <;> exact ⟨rfl, rfl, rfl, rfl⟩
  · rw [bat_work_chg_err k p w d h]
    simp only [cable_status_before]
    split_ifs <;> exact ⟨rfl, rfl, rfl, rfl⟩

/-- The charging flag after a tick is the one decided before programming. -/
theorem bat_work_charging (k : max8998_private) (p : temp_profile) (w : platform)
    (d : driver) :
    (s3c_bat_work k p w d).chg.charging =
      (cable_status_before k w (tick_reason p w d)).charging := by
  rcases tick_ret_cases k p w d with h | h
  · rw [bat_work_chg_ok k p w d h]
    simp only [s3c_program_alarm, cable_status_after]
    split_ifs <;> rfl
  · rw [bat_work_chg_err k p w d h]

/-- The bus writes of a tick. -/
theorem bat_work_ops (k : max8998_private) (p : temp_profile) (w : platform) (d : driver) :
    (s3c_bat_work k p w d).i2c_ops =
      (max8998_charging_control k w
        { d with chg := cable_status_before k w (tick_reason p w d) }).2.i2c_ops := by
  have hops := cable_update_ops k w { d with chg := tick_reason p w d }
  unfold tick_reason at hops ⊢
  unfold s3c_bat_work
  simp only
  split_ifs
  · exact hops
  · exact hops

/-- The return value seen by a tick, in terms of the register programming. -/
theorem tick_ret_eq (k : max8998_private) (p : temp_profile) (w : platform) (d : driver) :
    tick_ret k p w d =
      (max8998_charging_control k w
        { d with chg := cable_status_before k w (tick_reason p w d) }).1 :=
  cable_update_fst k w { d with chg := tick_reason p w d }

/-- The decision taken before programming: charge exactly when VDC is present
and the mask is empty. -/
theorem before_charging (k : max8998_private) (w : platform) (c : chg_data) :
    (cable_status_before k w c).charging =
      decide (max8998_check_vdcin k w = true ∧ c.bat_info.dis_reason = 0) ∧
    (cable_status_before k w c).cable_status = c.cable_status := by
  unfold cable_status_before
  split_ifs with hv hr <;> simp_all

/-- An empty mask with nothing to set stays empty. -/
theorem discharge_reason_stays_empty (p : temp_profile) (w : platform) (c : chg_data)
    (hr : c.bat_info.dis_reason = 0) (hs : c.set_batt_full = 0)
    (hp : c.bat_info.batt_percentage < 100)
    (hh : c.bat_info.batt_health = POWER_SUPPLY_HEALTH_GOOD)
    (ht : ¬ (c.discharging_time ≠ 0 ∧ w.now.tv_sec.val > c.discharging_time)) :
    (s3c_bat_discharge_reason p w c).bat_info.dis_reason = 0 := by
  have hp2 : ¬ c.bat_info.batt_percentage ≥ 100 := by omega
  simp only [s3c_bat_discharge_reason, hr, hs, hh, Nat.zero_and, ne_eq, not_true_eq_false,
    false_and, if_false, hp2, ht]

/-- The state a tick leaves behind on the charge branch. -/
theorem bat_work_charge_fields (k : max8998_private) (p : temp_profile) (w : platform)
    (d : driver) (hv : max8998_check_vdcin k w = true)
    (hr : (tick_reason p w d).bat_info.dis_reason = 0) :
    (s3c_bat_work k p w d).chg.set_batt_full = (tick_reason p w d).set_batt_full ∧
    (s3c_bat_work k p w d).chg.discharging_time =
      (cable_status_before k w (tick_reason p w d)).discharging_time ∧
    (tick_ret k p w d = 0 →
      (s3c_bat_work k p w d).chg.bat_info.charging_status =
        (if (tick_reason p w d).bat_info.batt_is_full = true then POWER_SUPPLY_STATUS_FULL
         else POWER_SUPPLY_STATUS_CHARGING)) ∧
    (tick_ret k p w d < 0 →
      (s3c_bat_work k p w d).chg.bat_info.charging_status =
        (tick_reason p w d).bat_info.charging_status) := by
  rcases tick_ret_cases k p w d with h | h
  · rw [bat_work_chg_ok k p w d h]
    refine ⟨?_, ?_, ?_, ?_⟩
    · simp [s3c_program_alarm, cable_status_after, cable_status_before, hv, hr]
    · simp [s3c_program_alarm, cable_status_after, cable_status_before, hv, hr]
    · intro _
      simp [s3c_program_alarm, cable_status_after, cable_status_before, hv, hr]
    · intro h'
      omega
  · rw [bat_work_chg_err k p w d h]
    refine ⟨?_, ?_, ?_, ?_⟩
    · simp [cable_status_before, hv, hr]
    · rfl
    · intro h'
      omega
    · intro _
      simp [cable_status_before, hv, hr]


/-- Status after a tick, by branch. -/
theorem bat_work_status (k : max8998_private) (p : temp_profile) (w : platform) (d : driver) :
    (s3c_bat_work k p w d).chg.bat_info.charging_status =
      (if tick_ret k p w d < 0 then d.chg.bat_info.charging_status
       else if max8998_check_vdcin k w = true then
         if (tick_reason p w d).bat_info.dis_reason ≠ 0 then
           if (tick_reason p w d).bat_info.batt_is_full = true then POWER_SUPPLY_STATUS_FULL
           else POWER_SUPPLY_STATUS_NOT_CHARGING
         else
           if (tick_reason p w d).bat_info.batt_is_full = true then POWER_SUPPLY_STATUS_FULL
           else POWER_SUPPLY_STATUS_CHARGING
       else POWER_SUPPLY_STATUS_DISCHARGING) := by
  rcases tick_ret_cases k p w d with h | h
  · have hn : ¬ tick_ret k p w d < 0 := by omega
    rw [bat_work_chg_ok k p w d h, if_neg hn]
    simp only [s3c_program_alarm, cable_status_after, cable_status_before]
    split_ifs <;> simp_all
  · rw [bat_work_chg_err k p w d h, if_pos h]
    simp only [cable_status_before]
    split_ifs <;> rfl

/-- Deadline after a tick, by branch. -/
theorem bat_work_deadline (k : max8998_private) (p : temp_profile) (w : platform)
    (d : driver) :
    (s3c_bat_work k p w d).chg.discharging_time =
      (if max8998_check_vdcin k w = true ∧ (tick_reason p w d).bat_info.dis_reason = 0 then
         if d.chg.discharging_time = 0 then
           if (tick_reason p w d).bat_info.batt_is_full = true ∨
               (tick_reason p w d).set_charge_timeout = true then
             (w.now.tv_sec.val + TOTAL_RECHARGING_TIME) % 4294967296
           else (w.now.tv_sec.val + TOTAL_CHARGING_TIME) % 4294967296
         else d.chg.discharging_time
       else if tick_ret k p w d < 0 then d.chg.discharging_time else 0) := by
  have hdt : (tick_reason p w d).discharging_time = d.chg.discharging_time := rfl
  rcases tick_ret_cases k p w d with h | h
  · have hn : ¬ tick_ret k p w d < 0 := by omega
    rw [bat_work_chg_ok k p w d h]
    simp only [s3c_program_alarm, cable_status_after, cable_status_before, hdt, if_neg hn]
    split_ifs <;> simp_all
  · rw [bat_work_chg_err k p w d h]
    simp only [cable_status_before, hdt, if_pos h]
    split_ifs <;> simp_all

/-- With VDC present and the first tick not blocked on a one-shot reason, the
second evaluator pass finds the mask empty exactly when the first did. -/
theorem second_pass_mask (k : max8998_private) (p : temp_profile) (w : platform)
    (d : driver) (hv : max8998_check_vdcin k w = true)
    (hst : (s3c_bat_work k p w d).chg.charging = true ∨
      d.chg.bat_info.batt_percentage ≥ 100 ∨
      (s3c_bat_work k p w d).chg.bat_info.dis_reason &&& DISCONNECT_TEMP_OVERHEAT ≠ 0 ∨
      (s3c_bat_work k p w d).chg.bat_info.dis_reason &&& DISCONNECT_TEMP_FREEZE ≠ 0) :
    (tick_reason p w (s3c_bat_work k p w d)).bat_info.dis_reason = 0 ↔
      (tick_reason p w d).bat_info.dis_reason = 0 := by
  obtain ⟨hpct, htemp, hhealth, -⟩ := bat_work_frame k p w d
  have hmask := bat_work_mask_of_vdc k p w d hv
  constructor
  · intro h2
    by_contra h1
    rcases hst with hc | hp | ho | hf
    · rw [bat_work_blocked_charging k p w d hv h1] at hc
      simp at hc
    · have : (tick_reason p w (s3c_bat_work k p w d)).bat_info.dis_reason &&&
          DISCONNECT_BAT_FULL ≠ 0 :=
        (discharge_reason_full p w _).mpr (Or.inr (by
          show (s3c_bat_work k p w d).chg.bat_info.batt_percentage ≥ 100
          rw [hpct]; exact hp))
      exact ne_zero_of_flag _ _ this h2
    · have h1o : (tick_reason p w d).bat_info.dis_reason &&& DISCONNECT_TEMP_OVERHEAT ≠ 0 := by
        rw [← hmask]; exact ho
      have : (tick_reason p w (s3c_bat_work k p w d)).bat_info.dis_reason &&&
          DISCONNECT_TEMP_OVERHEAT ≠ 0 := by
        apply (discharge_reason_overheat p w _).mpr
        rcases (discharge_reason_overheat p w _).mp h1o with hh | ⟨-, ht⟩
        · left
          show (s3c_bat_work k p w d).chg.bat_info.batt_health = _
          rw [hhealth]; exact hh
        · right
          refine ⟨ho, ?_⟩
          show ¬ (s3c_bat_work k p w d).chg.bat_info.batt_temp ≤ _
          rw [htemp]; exact ht
      exact ne_zero_of_flag _ _ this h2
    · have h1f : (tick_reason p w d).bat_info.dis_reason &&& DISCONNECT_TEMP_FREEZE ≠ 0 := by
        rw [← hmask]; exact hf
      have : (tick_reason p w (s3c_bat_work k p w d)).bat_info.dis_reason &&&
          DISCONNECT_TEMP_FREEZE ≠ 0 := by
        apply (discharge_reason_freeze p w _).mpr
        rcases (discharge_reason_freeze p w _).mp h1f with hh | ⟨-, ht⟩
        · left
          show (s3c_bat_work k p w d).chg.bat_info.batt_health ≠ _ ∧
            (s3c_bat_work k p w d).chg.bat_info.batt_health ≠ _
          rw [hhealth]; exact hh
        · right
          refine ⟨hf, ?_⟩
          show ¬ (s3c_bat_work k p w d).chg.bat_info.batt_temp ≥ _
          rw [htemp]; exact ht
      exact ne_zero_of_flag _ _ this h2
  · intro h1
    have hnow := w.now.tv_sec.isLt
    have hfull : ¬ (tick_reason p w d).bat_info.dis_reason &&& DISCONNECT_BAT_FULL ≠ 0 := by
      rw [h1]; simp
    have hoh : ¬ (tick_reason p w d).bat_info.dis_reason &&& DISCONNECT_TEMP_OVERHEAT ≠ 0 := by
      rw [h1]; simp
    have hfz : ¬ (tick_reason p w d).bat_info.dis_reason &&& DISCONNECT_TEMP_FREEZE ≠ 0 := by
      rw [h1]; simp
    have hot : ¬ (tick_reason p w d).bat_info.dis_reason &&& DISCONNECT_OVER_TIME ≠ 0 := by
      rw [h1]; simp
    have hfull2 : d.chg.set_batt_full = 0 ∧ d.chg.bat_info.batt_percentage < 100 := by
      have := mt (discharge_reason_full p w { d.chg with bat_work := false }).mpr hfull
      simp only [ne_eq, ge_iff_le, not_or, not_not, not_le] at this
      exact this
    have hgood : d.chg.bat_info.batt_health = POWER_SUPPLY_HEALTH_GOOD := by
      have a := mt (discharge_reason_overheat p w { d.chg with bat_work := false }).mpr hoh
      have b := mt (discharge_reason_freeze p w { d.chg with bat_work := false }).mpr hfz
      simp only [not_or] at a b
      by_contra hg
      exact b.1 ⟨hg, a.1⟩
    have hdead : ¬ (d.chg.discharging_time ≠ 0 ∧ w.now.tv_sec.val > d.chg.discharging_time) := by
      have a := mt (discharge_reason_over_time p w { d.chg with bat_work := false }).mpr hot
      simp only [not_or] at a
      exact a.1
    obtain ⟨hsbf, hdt, -, -⟩ := bat_work_charge_fields k p w d hv h1
    apply discharge_reason_stays_empty
    · show (s3c_bat_work k p w d).chg.bat_info.dis_reason = 0
      rw [hmask]; exact h1
    · show (s3c_bat_work k p w d).chg.set_batt_full = 0
      rw [hsbf]
      show (if d.chg.bat_info.batt_percentage ≥ 100 then 1 else d.chg.set_batt_full) = 0
      rw [if_neg (by omega)]; exact hfull2.1
    · show (s3c_bat_work k p w d).chg.bat_info.batt_percentage < 100
      rw [hpct]; exact hfull2.2
    · show (s3c_bat_work k p w d).chg.bat_info.batt_health = _
      rw [hhealth]; exact hgood
    · show ¬ ((s3c_bat_work k p w d).chg.discharging_time ≠ 0 ∧
        w.now.tv_sec.val > (s3c_bat_work k p w d).chg.discharging_time)
      rw [bat_work_deadline, if_pos ⟨hv, h1⟩]
      simp only [TOTAL_RECHARGING_TIME, TOTAL_CHARGING_TIME]
      split_ifs <;> omega


/-- C9, the claim as written fails: `charging_since_1000` is reachable from the
probed controller; two ticks at second 30000 with the same facts, cable, VDC
reading and clock disagree.  The first finds the Deadline 22600 passed and
stops charging; the second clears OverTime again, charges, and sets a new
Deadline. -/
theorem tick_twice_counterexample :
    (s3c_bat_work max8998_header default_profile (bus_ok 0x20 (at_sec 30000))
      charging_since_1000).chg.charging = false ∧
    (s3c_bat_work max8998_header default_profile (bus_ok 0x20 (at_sec 30000))
      (s3c_bat_work max8998_header default_profile (bus_ok 0x20 (at_sec 30000))
        charging_since_1000)).chg.charging = true ∧
    (s3c_bat_work max8998_header default_profile (bus_ok 0x20 (at_sec 30000))
      charging_since_1000).chg.discharging_time = 0 ∧
    (s3c_bat_work max8998_header default_profile (bus_ok 0x20 (at_sec 30000))
      (s3c_bat_work max8998_header default_profile (bus_ok 0x20 (at_sec 30000))
        charging_since_1000)).chg.discharging_time = 35400 := by
  decide

/-- C9, amended: two consecutive ticks with the same facts, cable type, VDC
reading, clock reading and bus answers give the same decision (charging flag,
status, register writes) and the second leaves the Deadline alone, provided
the first tick did not stop charging on BatteryFull or OverTime alone with the
percentage below 100: it found VDC absent, or left charging on, or the
percentage is 100 or more, or the mask after it holds Overheat or Freeze. -/
theorem tick_twice_same_decision (k : max8998_private) (p : temp_profile) (w : platform)
    (d : driver)
    (hstable : max8998_check_vdcin k w = false ∨
      (s3c_bat_work k p w d).chg.charging = true ∨
      d.chg.bat_info.batt_percentage ≥ 100 ∨
      (s3c_bat_work k p w d).chg.bat_info.dis_reason &&& DISCONNECT_TEMP_OVERHEAT ≠ 0 ∨
      (s3c_bat_work k p w d).chg.bat_info.dis_reason &&& DISCONNECT_TEMP_FREEZE ≠ 0) :
    (s3c_bat_work k p w (s3c_bat_work k p w d)).chg.charging =
      (s3c_bat_work k p w d).chg.charging ∧
    (s3c_bat_work k p w (s3c_bat_work k p w d)).chg.bat_info.charging_status =
      (s3c_bat_work k p w d).chg.bat_info.charging_status ∧
    (s3c_bat_work k p w (s3c_bat_work k p w d)).i2c_ops = (s3c_bat_work k p w d).i2c_ops ∧
    (s3c_bat_work k p w (s3c_bat_work k p w d)).chg.discharging_time =
      (s3c_bat_work k p w d).chg.discharging_time := by
  obtain ⟨hpct, -, -, hcable⟩ := bat_work_frame k p w d
  have hnow := w.now.tv_sec.isLt
  have hmask : max8998_check_vdcin k w = true →
      ((tick_reason p w (s3c_bat_work k p w d)).bat_info.dis_reason = 0 ↔
        (tick_reason p w d).bat_info.dis_reason = 0) := by
    intro hv
    apply second_pass_mask k p w d hv
    rcases hstable with h | h
    · rw [hv] at h
      exact absurd h (by decide)
    · exact h
  have hfull : max8998_check_vdcin k w = true →
      (tick_reason p w (s3c_bat_work k p w d)).bat_info.batt_is_full =
        (tick_reason p w d).bat_info.batt_is_full := by
    intro hv
    show (if (s3c_bat_work k p w d).chg.bat_info.batt_percentage ≥ 100 then true
      else (s3c_bat_work k p w d).chg.bat_info.batt_is_full) =
      (if d.chg.bat_info.batt_percentage ≥ 100 then true else d.chg.bat_info.batt_is_full)
    rw [hpct, bat_work_full_of_vdc k p w d hv]
    split_ifs <;> rfl
  have hch : (cable_status_before k w (tick_reason p w (s3c_bat_work k p w d))).charging =
      (cable_status_before k w (tick_reason p w d)).charging := by
    rw [(before_charging k w _).1, (before_charging k w _).1]
    by_cases hv : max8998_check_vdcin k w = true
    · simp only [hv, true_and, hmask hv]
    · simp [hv]
  have hcs : (cable_status_before k w (tick_reason p w (s3c_bat_work k p w d))).cable_status =
      (cable_status_before k w (tick_reason p w d)).cable_status := by
    rw [(before_charging k w _).2, (before_charging k w _).2]
    exact hcable
  have hcc := charging_control_congr k w
    { s3c_bat_work k p w d with
      chg := cable_status_before k w (tick_reason p w (s3c_bat_work k p w d)) }
    { d with chg := cable_status_before k w (tick_reason p w d) } hch hcs
  have hret : tick_ret k p w (s3c_bat_work k p w d) = tick_ret k p w d := by
    rw [tick_ret_eq, tick_ret_eq]
    exact hcc.1
  refine ⟨?_, ?_, ?_, ?_⟩
  · rw [bat_work_charging k p w (s3c_bat_work k p w d), bat_work_charging k p w d]
    exact hch
  · rw [bat_work_status k p w (s3c_bat_work k p w d), hret]
    by_cases hneg : tick_ret k p w d < 0
    · rw [if_pos hneg]
    · rw [if_neg hneg, bat_work_status k p w d, if_neg hneg]
      by_cases hv : max8998_check_vdcin k w = true
      · simp only [hv, if_true, ne_eq, hmask hv, hfull hv]
      · simp [hv]
  · rw [bat_work_ops k p w (s3c_bat_work k p w d), bat_work_ops k p w d]
    exact hcc.2
  · rw [bat_work_deadline k p w (s3c_bat_work k p w d), hret]
    by_cases hc : max8998_check_vdcin k w = true ∧ (tick_reason p w d).bat_info.dis_reason = 0
    · have hc2 : max8998_check_vdcin k w = true ∧
          (tick_reason p w (s3c_bat_work k p w d)).bat_info.dis_reason = 0 :=
        ⟨hc.1, (hmask hc.1).mpr hc.2⟩
      have hne : (s3c_bat_work k p w d).chg.discharging_time ≠ 0 := by
        rw [bat_work_deadline k p w d, if_pos hc]
        simp only [TOTAL_RECHARGING_TIME, TOTAL_CHARGING_TIME]
        split_ifs <;> omega
      rw [if_pos hc2, if_neg hne]
    · have hc2 : ¬ (max8998_check_vdcin k w = true ∧
          (tick_reason p w (s3c_bat_work k p w d)).bat_info.dis_reason = 0) := by
        intro h
        exact hc ⟨h.1, (hmask h.1).mp h.2⟩
      rw [if_neg hc2]
      by_cases hneg : tick_ret k p w d < 0
      · rw [if_pos hneg]
      · rw [if_neg hneg, bat_work_deadline k p w d, if_neg hc, if_neg hneg]

theorem tick_twice_same_decision_witness :
    (max8998_check_vdcin max8998_header (bus_ok 0x20 (at_sec 1060)) = false ∨
      (s3c_bat_work max8998_header default_profile (bus_ok 0x20 (at_sec 1060))
        charging_since_1000).chg.charging = true ∨
      charging_since_1000.chg.bat_info.batt_percentage ≥ 100 ∨
      (s3c_bat_work max8998_header default_profile (bus_ok 0x20 (at_sec 1060))
        charging_since_1000).chg.bat_info.dis_reason &&& DISCONNECT_TEMP_OVERHEAT ≠ 0 ∨
      (s3c_bat_work max8998_header default_profile (bus_ok 0x20 (at_sec 1060))
        charging_since_1000).chg.bat_info.dis_reason &&& DISCONNECT_TEMP_FREEZE ≠ 0) ∧
    (s3c_bat_work max8998_header default_profile (bus_ok 0x20 (at_sec 1060))
      (s3c_bat_work max8998_header default_profile (bus_ok 0x20 (at_sec 1060))
        charging_since_1000)).chg.discharging_time =
      (s3c_bat_work max8998_header default_profile (bus_ok 0x20 (at_sec 1060))
        charging_since_1000).chg.discharging_time :=
  ⟨by decide,
   (tick_twice_same_decision max8998_header default_profile (bus_ok 0x20 (at_sec 1060))
      charging_since_1000 (by decide)).2.2.2⟩


/-! ## A failed register programming -/

/-- The VDC-in check reads the platform only through STATUS2. -/
theorem check_vdcin_congr (k : max8998_private) (w w2 : platform)
    (hs : w2.status2 = w.status2) :
    max8998_check_vdcin k w2 = max8998_check_vdcin k w := by
  unfold max8998_check_vdcin
  rw [hs]

/-- The decision taken before programming reads the platform only through
STATUS2 and the clock. -/
theorem cable_status_before_congr (k : max8998_private) (w w2 : platform) (c : chg_data)
    (hs : w2.status2 = w.status2) (hn : w2.now = w.now) :
    cable_status_before k w2 c = cable_status_before k w c := by
  unfold cable_status_before
  rw [check_vdcin_congr k w w2 hs, hn]

/-- The error the engine returns is one the bus returned. -/
theorem cable_update_err_from_bus (k : max8998_private) (w : platform) (d : driver)
    (herr : (s3c_cable_status_update k w d).1 < 0) :
    (s3c_cable_status_update k w d).1 = w.chgr1_ret ∨
      (s3c_cable_status_update k w d).1 = w.chgr2_ret := by
  rw [cable_update_fst] at herr ⊢
  unfold max8998_charging_control at herr ⊢
  split_ifs at herr ⊢ <;> simp_all

/-- C11, the claim as written fails.  Scenario A with VDC present: when the
CHGR1 write fails the call returns -5 and the status stays Unknown, while the
same call with a working bus reports Charging.  The charging controller with
VDC gone: when the CHGR2 update fails the Deadline 22600 stays, while the same
call with a working bus clears it. -/
theorem programming_error_counterexample :
    (s3c_cable_status_update max8998_header (bus_write_fails 0x20 (at_sec 1000))
      (scenario_a 0 (at_sec 0))).1 = -5 ∧
    (s3c_cable_status_update max8998_header (bus_write_fails 0x20 (at_sec 1000))
      (scenario_a 0 (at_sec 0))).2.chg.bat_info.charging_status =
        POWER_SUPPLY_STATUS_UNKNOWN ∧
    (s3c_cable_status_update max8998_header (bus_ok 0x20 (at_sec 1000))
      (scenario_a 0 (at_sec 0))).2.chg.bat_info.charging_status =
        POWER_SUPPLY_STATUS_CHARGING ∧
    (s3c_cable_status_update max8998_header (bus_write_fails 0 (at_sec 2000))
      charging_since_1000).2.chg.discharging_time = 22600 ∧
    (s3c_cable_status_update max8998_header (bus_ok 0 (at_sec 2000))
      charging_since_1000).2.chg.discharging_time = 0 := by
  decide

/-- C11, amended: when the register programming fails inside
`s3c_cable_status_update`, the negative value the bus returned is returned to
the caller and nothing written before the programming is rolled back: the
charging flag, and on the charge branch the Deadline, are the ones the call
produces when programming succeeds.  What the call assigns after the
programming is skipped: `charging_status`, `batt_is_full`,
`set_charge_timeout` and the reason mask keep their values on entry, and off
the charge branch so does the Deadline. -/
theorem programming_error_keeps_entry_state (k : max8998_private) (w w2 : platform)
    (d : driver) (hs : w2.status2 = w.status2) (hn : w2.now = w.now)
    (herr : (s3c_cable_status_update k w d).1 < 0)
    (hok : (s3c_cable_status_update k w2 d).1 = 0) :
    ((s3c_cable_status_update k w d).1 = w.chgr1_ret ∨
      (s3c_cable_status_update k w d).1 = w.chgr2_ret) ∧
    (s3c_cable_status_update k w d).2.chg.charging =
      (s3c_cable_status_update k w2 d).2.chg.charging ∧
    (s3c_cable_status_update k w d).2.chg.bat_info.charging_status =
      d.chg.bat_info.charging_status ∧
    (s3c_cable_status_update k w d).2.chg.bat_info.batt_is_full =
      d.chg.bat_info.batt_is_full ∧
    (s3c_cable_status_update k w d).2.chg.set_charge_timeout = d.chg.set_charge_timeout ∧
    (s3c_cable_status_update k w d).2.chg.bat_info.dis_reason = d.chg.bat_info.dis_reason ∧
    (max8998_check_vdcin k w = true → d.chg.bat_info.dis_reason = 0 →
      (s3c_cable_status_update k w d).2.chg.discharging_time =
        (s3c_cable_status_update k w2 d).2.chg.discharging_time) ∧
    (¬ (max8998_check_vdcin k w = true ∧ d.chg.bat_info.dis_reason = 0) →
      (s3c_cable_status_update k w d).2.chg.discharging_time = d.chg.discharging_time) := by
  refine ⟨cable_update_err_from_bus k w d herr, ?_⟩
  have hv := check_vdcin_congr k w w2 hs
  rw [cable_update_chg_err k w d herr, cable_update_chg_ok k w2 d hok,
    cable_status_before_congr k w w2 d.chg hs hn]
  unfold cable_status_after cable_status_before
  rw [hv]
  by_cases hvdc : max8998_check_vdcin k w = true
  · by_cases hr : d.chg.bat_info.dis_reason = 0
    · simp [hvdc, hr]
    · simp [hvdc, hr]
  · simp [hvdc]

theorem programming_error_keeps_entry_state_witness :
    (bus_ok 0x20 (at_sec 1000)).status2 = (bus_write_fails 0x20 (at_sec 1000)).status2 ∧
    (bus_ok 0x20 (at_sec 1000)).now = (bus_write_fails 0x20 (at_sec 1000)).now ∧
    (s3c_cable_status_update max8998_header (bus_write_fails 0x20 (at_sec 1000))
      (scenario_a 0 (at_sec 0))).1 < 0 ∧
    (s3c_cable_status_update max8998_header (bus_ok 0x20 (at_sec 1000))
      (scenario_a 0 (at_sec 0))).1 = 0 ∧
    (s3c_cable_status_update max8998_header (bus_write_fails 0x20 (at_sec 1000))
      (scenario_a 0 (at_sec 0))).2.chg.charging =
      (s3c_cable_status_update max8998_header (bus_ok 0x20 (at_sec 1000))
        (scenario_a 0 (at_sec 0))).2.chg.charging :=
  ⟨by decide, by decide, by decide, by decide,
   (programming_error_keeps_entry_state max8998_header (bus_write_fails 0x20 (at_sec 1000))
      (bus_ok 0x20 (at_sec 1000)) (scenario_a 0 (at_sec 0))
      (by decide) (by decide) (by decide) (by decide)).2.1⟩

/-! ## More claims about the evaluator -/

/-- The evaluator latches the timeout exactly when the Deadline has passed. -/
theorem discharge_reason_charge_timeout (p : temp_profile) (w : platform) (c : chg_data) :
    (s3c_bat_discharge_reason p w c).set_charge_timeout =
      (if c.discharging_time ≠ 0 ∧ w.now.tv_sec.val > c.discharging_time then true
       else c.set_charge_timeout) := rfl

/-- C12: after `s3c_bat_discharge_reason`, a Deadline that is set and
exceeded gives `set_charge_timeout` = true and OverTime in the reason mask,
whatever the percentage; otherwise `set_charge_timeout` keeps its value and
OverTime is in the mask exactly when it was there on entry and the percentage
is 100 or more. -/
theorem discharge_reason_deadline (p : temp_profile) (w : platform) (c : chg_data) :
    ((c.discharging_time ≠ 0 ∧ w.now.tv_sec.val > c.discharging_time) →
      (s3c_bat_discharge_reason p w c).set_charge_timeout = true ∧
      (s3c_bat_discharge_reason p w c).bat_info.dis_reason &&& DISCONNECT_OVER_TIME ≠ 0) ∧
    (¬ (c.discharging_time ≠ 0 ∧ w.now.tv_sec.val > c.discharging_time) →
      (s3c_bat_discharge_reason p w c).set_charge_timeout = c.set_charge_timeout ∧
      ((s3c_bat_discharge_reason p w c).bat_info.dis_reason &&& DISCONNECT_OVER_TIME ≠ 0 ↔
        (c.bat_info.dis_reason &&& DISCONNECT_OVER_TIME ≠ 0 ∧
          c.bat_info.batt_percentage ≥ 100))) := by
  constructor
  · intro h
    refine ⟨?_, (discharge_reason_over_time p w c).mpr (Or.inl h)⟩
    rw [discharge_reason_charge_timeout, if_pos h]
  · intro h
    refine ⟨?_, ?_⟩
    · rw [discharge_reason_charge_timeout, if_neg h]
    · rw [discharge_reason_over_time]
      constructor
      · rintro (h1 | h2)
        · exact absurd h1 h
        · exact h2
      · intro h2
        exact Or.inr h2

/-- C14: when the health is not Good, after `s3c_bat_discharge_reason` the
reason mask holds Overheat if the health is Overheat and Freeze for every
other health value, whatever the temperature is. -/
theorem discharge_reason_health (p : temp_profile) (w : platform) (c : chg_data)
    (hh : c.bat_info.batt_health ≠ POWER_SUPPLY_HEALTH_GOOD) :
    (c.bat_info.batt_health = POWER_SUPPLY_HEALTH_OVERHEAT →
      (s3c_bat_discharge_reason p w c).bat_info.dis_reason &&&
        DISCONNECT_TEMP_OVERHEAT ≠ 0) ∧
    (c.bat_info.batt_health ≠ POWER_SUPPLY_HEALTH_OVERHEAT →
      (s3c_bat_discharge_reason p w c).bat_info.dis_reason &&&
        DISCONNECT_TEMP_FREEZE ≠ 0) := by
  constructor
  · intro ho
    exact (discharge_reason_overheat p w c).mpr (Or.inl ho)
  · intro hno
    exact (discharge_reason_freeze p w c).mpr (Or.inl ⟨hh, hno⟩)

theorem discharge_reason_health_witness :
    (s3c_bat_set_property .POWER_SUPPLY_PROP_HEALTH 6
      (scenario_a 0 (at_sec 0))).2.chg.bat_info.batt_health ≠ POWER_SUPPLY_HEALTH_GOOD ∧
    (s3c_bat_discharge_reason default_profile (bus_ok 0x20 (at_sec 1000))
      (s3c_bat_set_property .POWER_SUPPLY_PROP_HEALTH 6
        (scenario_a 0 (at_sec 0))).2.chg).bat_info.dis_reason &&&
      DISCONNECT_TEMP_FREEZE ≠ 0 :=
  ⟨by decide,
   (discharge_reason_health default_profile (bus_ok 0x20 (at_sec 1000))
      (s3c_bat_set_property .POWER_SUPPLY_PROP_HEALTH 6 (scenario_a 0 (at_sec 0))).2.chg
      (by decide)).2 (by decide)⟩


/-! ## Temperature recovery -/

/-- With health Good the temperature tests act as the recovery rules say, as
long as the temperature and the recovery points are not negative: a set
Overheat flag is cleared exactly at or below `HIGH_RECOVER_TEMP`, a set Freeze
flag exactly at or above `LOW_RECOVER_TEMP`, and a flag that was not set stays
out, so neither test touches the other flag. -/
theorem temp_recovery_in_range (p : temp_profile) (w : platform) (c : chg_data) (t : Int)
    (hg : c.bat_info.batt_health = POWER_SUPPLY_HEALTH_GOOD)
    (ht : c.bat_info.batt_temp = u32_of_int t) (ht0 : 0 ≤ t) (ht1 : t < 2147483648)
    (hhi0 : 0 ≤ p.HIGH_RECOVER_TEMP) (hhi1 : p.HIGH_RECOVER_TEMP < 2147483648)
    (hlo0 : 0 ≤ p.LOW_RECOVER_TEMP) (hlo1 : p.LOW_RECOVER_TEMP < 2147483648) :
    ((s3c_bat_discharge_reason p w c).bat_info.dis_reason &&& DISCONNECT_TEMP_OVERHEAT ≠ 0 ↔
      (c.bat_info.dis_reason &&& DISCONNECT_TEMP_OVERHEAT ≠ 0 ∧ ¬ t ≤ p.HIGH_RECOVER_TEMP)) ∧
    ((s3c_bat_discharge_reason p w c).bat_info.dis_reason &&& DISCONNECT_TEMP_FREEZE ≠ 0 ↔
      (c.bat_info.dis_reason &&& DISCONNECT_TEMP_FREEZE ≠ 0 ∧ ¬ t ≥ p.LOW_RECOVER_TEMP)) := by
  have hgo : ¬ c.bat_info.batt_health = POWER_SUPPLY_HEALTH_OVERHEAT := by
    rw [hg]; decide
  have e1 : (c.bat_info.batt_temp ≤ u32_of_int p.HIGH_RECOVER_TEMP) ↔
      t ≤ p.HIGH_RECOVER_TEMP := by
    rw [ht]; unfold u32_of_int; omega
  have e2 : (c.bat_info.batt_temp ≥ u32_of_int p.LOW_RECOVER_TEMP) ↔
      t ≥ p.LOW_RECOVER_TEMP := by
    rw [ht]; unfold u32_of_int; omega
  constructor
  · rw [discharge_reason_overheat, e1]
    simp [hgo]
  · rw [discharge_reason_freeze, e2]
    simp [hg]

/-- C13, the code at the failing input.  A temperature of -5.0 C is stored in
the `u32` field as 4294967246 and compared unsigned.  Health is Good in both
states.  In `overheat_then_minus_5` Overheat is set and -50 is below the
recovery point 420, yet the evaluator leaves Overheat set.  In
`cold_then_minus_5` Freeze is set and -50 is below the recovery point 20, yet
the evaluator clears Freeze. -/
theorem sub_zero_recovery_diverges :
    overheat_then_minus_5.chg.bat_info.batt_health = POWER_SUPPLY_HEALTH_GOOD ∧
    overheat_then_minus_5.chg.bat_info.batt_temp = 4294967246 ∧
    overheat_then_minus_5.chg.bat_info.dis_reason &&& DISCONNECT_TEMP_OVERHEAT ≠ 0 ∧
    (-50 : Int) ≤ default_profile.HIGH_RECOVER_TEMP ∧
    (s3c_bat_discharge_reason default_profile (bus_ok 0x20 (at_sec 1060))
      overheat_then_minus_5.chg).bat_info.dis_reason &&& DISCONNECT_TEMP_OVERHEAT ≠ 0 ∧
    cold_then_minus_5.chg.bat_info.batt_health = POWER_SUPPLY_HEALTH_GOOD ∧
    cold_then_minus_5.chg.bat_info.batt_temp = 4294967246 ∧
    cold_then_minus_5.chg.bat_info.dis_reason &&& DISCONNECT_TEMP_FREEZE ≠ 0 ∧
    ¬ ((-50 : Int) ≥ default_profile.LOW_RECOVER_TEMP) ∧
    (s3c_bat_discharge_reason default_profile (bus_ok 0x20 (at_sec 1060))
      cold_then_minus_5.chg).bat_info.dis_reason &&& DISCONNECT_TEMP_FREEZE = 0 := by
  decide

/-! ## The battery-full interrupt -/

/-- C15: when `max8998_int_work_func` reads IRQ1 and IRQ3 without error and
the bit 0x4 is set, it latches `batt_is_full` and queues the work item; after
the tick that follows, with VDC present and the registers programmed without
error, BatteryFull is in the reason mask, charging is off and the status is
Full, whatever the percentage is. -/
theorem full_interrupt_blocks (k : max8998_private) (p : temp_profile) (wi w : platform)
    (d : driver) (h1 : 0 ≤ wi.irq1.1) (h3 : 0 ≤ wi.irq3.1) (hbit : wi.irq3.2 &&& 0x4 ≠ 0) :
    (max8998_int_work_func wi d).chg.bat_info.batt_is_full = true ∧
    (max8998_int_work_func wi d).chg.bat_work = true ∧
    (max8998_check_vdcin k w = true → tick_ret k p w (max8998_int_work_func wi d) = 0 →
      (s3c_bat_work k p w (max8998_int_work_func wi d)).chg.bat_info.dis_reason &&&
        DISCONNECT_BAT_FULL ≠ 0 ∧
      (s3c_bat_work k p w (max8998_int_work_func wi d)).chg.charging = false ∧
      (s3c_bat_work k p w (max8998_int_work_func wi d)).chg.bat_info.charging_status =
        POWER_SUPPLY_STATUS_FULL) := by
  have hn1 : ¬ wi.irq1.1 < 0 := by omega
  have hn3 : ¬ wi.irq3.1 < 0 := by omega
  have hfull : (max8998_int_work_func wi d).chg.bat_info.batt_is_full = true := by
    simp [max8998_int_work_func, hn1, hn3, hbit]
  have hsbf : (max8998_int_work_func wi d).chg.set_batt_full = 1 := by
    simp [max8998_int_work_func, hn1, hn3, hbit]
  refine ⟨hfull, ?_, ?_⟩
  · simp [max8998_int_work_func, hn1, hn3]
  · intro hv hret
    have hflag : (tick_reason p w (max8998_int_work_func wi d)).bat_info.dis_reason &&&
        DISCONNECT_BAT_FULL ≠ 0 :=
      (discharge_reason_full p w _).mpr (Or.inl (by
        show (max8998_int_work_func wi d).chg.set_batt_full ≠ 0
        rw [hsbf]; decide))
    have hr := ne_zero_of_flag _ _ hflag
    have hn : ¬ tick_ret k p w (max8998_int_work_func wi d) < 0 := by omega
    refine ⟨?_, bat_work_blocked_charging k p w _ hv hr, ?_⟩
    · rw [bat_work_mask_of_vdc k p w _ hv]
      exact hflag
    · rw [bat_work_status, if_neg hn, if_pos hv, if_pos hr]
      have : (tick_reason p w (max8998_int_work_func wi d)).bat_info.batt_is_full = true := by
        show (if (max8998_int_work_func wi d).chg.bat_info.batt_percentage ≥ 100 then true
          else (max8998_int_work_func wi d).chg.bat_info.batt_is_full) = true
        rw [hfull]
        split_ifs <;> rfl
      rw [if_pos this]

theorem full_interrupt_blocks_witness :
    0 ≤ (bus_irq_full (at_sec 1030)).irq1.1 ∧
    0 ≤ (bus_irq_full (at_sec 1030)).irq3.1 ∧
    (bus_irq_full (at_sec 1030)).irq3.2 &&& 0x4 ≠ 0 ∧
    charging_since_1000.chg.bat_info.batt_percentage = 50 ∧
    max8998_check_vdcin max8998_header (bus_ok 0x20 (at_sec 1031)) = true ∧
    tick_ret max8998_header default_profile (bus_ok 0x20 (at_sec 1031))
      (max8998_int_work_func (bus_irq_full (at_sec 1030)) charging_since_1000) = 0 ∧
    (s3c_bat_work max8998_header default_profile (bus_ok 0x20 (at_sec 1031))
      (max8998_int_work_func (bus_irq_full (at_sec 1030))
        charging_since_1000)).chg.bat_info.charging_status = POWER_SUPPLY_STATUS_FULL :=
  ⟨by decide, by decide, by decide, by decide, by decide, by decide,
   ((full_interrupt_blocks max8998_header default_profile (bus_irq_full (at_sec 1030))
      (bus_ok 0x20 (at_sec 1031)) charging_since_1000 (by decide) (by decide) (by decide)).2.2
      (by decide) (by decide)).2.2⟩


/-! ## Rejected writes -/

/-- The rejected writes that do report an invalid argument: a write to
`batt_full_check` (its position 1 matches no `case`) and a write of a
read-only property both return `-EINVAL`; the first leaves
`lpm_charging_mode` and `batt_is_full` alone, the second the whole state. -/
theorem rejected_writes_invalid (scanned : Option Int) (count val : Int) (d : driver) :
    (s3c_bat_store_attrs attr_batt_full_check scanned count d).1 = -EINVAL ∧
    (s3c_bat_store_attrs attr_batt_full_check scanned count d).2.lpm_charging_mode =
      d.lpm_charging_mode ∧
    (s3c_bat_store_attrs attr_batt_full_check scanned count d).2.chg.bat_info.batt_is_full =
      d.chg.bat_info.batt_is_full ∧
    s3c_bat_set_property .POWER_SUPPLY_PROP_ONLINE val d = (-EINVAL, d) ∧
    s3c_bat_set_property .POWER_SUPPLY_PROP_TECHNOLOGY val d = (-EINVAL, d) := by
  refine ⟨?_, ?_, ?_, rfl, rfl⟩ <;>
    simp [s3c_bat_store_attrs, attr_batt_full_check, CHARGING_MODE_BOOTING, BATT_FULL_CHECK]

/-- Non-numeric text written to `charging_mode_booting` changes neither
`lpm_charging_mode` nor `batt_is_full`, returns 0 and queues the work item. -/
theorem store_attrs_non_numeric (count : Int) (d : driver) :
    s3c_bat_store_attrs attr_charging_mode_booting none count d =
      (0, { d with chg := { d.chg with bat_work := true } }) := by
  simp [s3c_bat_store_attrs, attr_charging_mode_booting, CHARGING_MODE_BOOTING]

/-- C16, the code at the failing input: a write of four bytes of non-numeric
text to `charging_mode_booting` on the probed controller returns 0, not
`-EINVAL`; `lpm_charging_mode` and `batt_is_full` are unchanged and the work
item is queued. -/
theorem store_attrs_returns_zero :
    (s3c_bat_store_attrs attr_charging_mode_booting none 4 probed).1 = 0 ∧
    (s3c_bat_store_attrs attr_charging_mode_booting none 4 probed).1 ≠ -EINVAL ∧
    (s3c_bat_store_attrs attr_charging_mode_booting none 4 probed).2.lpm_charging_mode =
      probed.lpm_charging_mode ∧
    (s3c_bat_store_attrs attr_charging_mode_booting none 4 probed).2.chg.bat_info.batt_is_full =
      probed.chg.bat_info.batt_is_full ∧
    (s3c_bat_store_attrs attr_charging_mode_booting none 4 probed).2.chg.bat_work = true := by
  decide

/-! ## Suspend and resume -/

/-- C17: `max8998_charger_suspend` with `charging` false programs the alarm
with the slow delay of 600 s and sets `slow_poll` to 1, and with `charging`
true changes nothing; `max8998_charger_resume` with `slow_poll` set programs
the alarm with the fast delay of 60 s and clears `slow_poll`, and with
`slow_poll` clear changes nothing. -/
theorem suspend_resume_cadence (d : driver) :
    (d.chg.charging = false →
      (max8998_charger_suspend d).2.chg.alarm = (s3c_program_alarm d.chg 600).alarm ∧
      (max8998_charger_suspend d).2.chg.alarm =
        some (d.chg.last_poll + ktime_set 590 0, d.chg.last_poll + ktime_set 610 0) ∧
      (max8998_charger_suspend d).2.chg.slow_poll = 1) ∧
    (d.chg.charging = true → (max8998_charger_suspend d).2 = d) ∧
    (max8998_charger_suspend d).1 = 0 ∧
    (d.chg.slow_poll ≠ 0 →
      (max8998_charger_resume d).chg.alarm = (s3c_program_alarm d.chg 60).alarm ∧
      (max8998_charger_resume d).chg.alarm =
        some (d.chg.last_poll + ktime_set 50 0, d.chg.last_poll + ktime_set 70 0) ∧
      (max8998_charger_resume d).chg.slow_poll = 0) ∧
    (d.chg.slow_poll = 0 → max8998_charger_resume d = d) := by
  refine ⟨?_, ?_, ?_, ?_, ?_⟩
  · intro h
    have e : max8998_charger_suspend d =
        (0, { d with chg := { s3c_program_alarm d.chg SLOW_POLL with slow_poll := 1 } }) := by
      unfold max8998_charger_suspend
      rw [if_pos h]
    rw [e]
    refine ⟨rfl, ?_, rfl⟩
    simp only [s3c_program_alarm, SLOW_POLL, ktime_set, ktime_add, NSEC_PER_SEC]
    congr 2
    ring
  · intro h
    simp [max8998_charger_suspend, h]
  · unfold max8998_charger_suspend
    split_ifs <;> rfl
  · intro h
    have e : max8998_charger_resume d =
        { d with chg := { s3c_program_alarm d.chg FAST_POLL with slow_poll := 0 } } := by
      unfold max8998_charger_resume
      rw [if_pos h]
    rw [e]
    refine ⟨rfl, ?_, rfl⟩
    simp only [s3c_program_alarm, FAST_POLL, ktime_set, ktime_add, NSEC_PER_SEC]
    congr 2
    ring
  · intro h
    simp [max8998_charger_resume, h]

/-! ## The VDC-in check -/

/-- When the read of STATUS2 succeeds, the check answers true exactly when the
VDCIN bit is set, and the supplies report online exactly when their cable type
is the reported one and the bit is set. -/
theorem check_vdcin_read_ok (k : max8998_private) (w : platform) (val : Int) (d : driver)
    (hread : 0 ≤ w.status2.1) :
    (max8998_check_vdcin k w = true ↔ w.status2.2 &&& k.MAX8998_MASK_VDCIN ≠ 0) ∧
    ((s3c_usb_get_property k w .POWER_SUPPLY_PROP_ONLINE val d).2 = 1 ↔
      (d.chg.cable_status = .CABLE_TYPE_USB ∧ w.status2.2 &&& k.MAX8998_MASK_VDCIN ≠ 0)) ∧
    ((s3c_ac_get_property k w .POWER_SUPPLY_PROP_ONLINE val d).2 = 1 ↔
      (d.chg.cable_status = .CABLE_TYPE_AC ∧ w.status2.2 &&& k.MAX8998_MASK_VDCIN ≠ 0)) := by
  have hn : ¬ w.status2.1 < 0 := by omega
  have hc : max8998_check_vdcin k w = true ↔ w.status2.2 &&& k.MAX8998_MASK_VDCIN ≠ 0 := by
    simp [max8998_check_vdcin, hn]
  refine ⟨hc, ?_, ?_⟩
  · rw [← hc]
    simp only [s3c_usb_get_property, ne_eq, not_true_eq_false, if_false, int_of_bool]
    by_cases h1 : d.chg.cable_status = .CABLE_TYPE_USB <;>
      by_cases h2 : max8998_check_vdcin k w = true <;> simp [h1, h2]
  · rw [← hc]
    simp only [s3c_ac_get_property, ne_eq, not_true_eq_false, if_false, int_of_bool]
    by_cases h1 : d.chg.cable_status = .CABLE_TYPE_AC <;>
      by_cases h2 : max8998_check_vdcin k w = true <;> simp [h1, h2]

/-- C18, the code at the failing input: the read of STATUS2 fails with -5 and
delivers no data, so no VDCIN bit is set; `max8998_check_vdcin` answers true,
the USB supply of a controller with a USB cable reports online = 1 and the AC
supply of a controller with an AC cable reports online = 1. -/
theorem failed_read_reports_vdcin :
    (bus_read_fails (at_sec 10)).status2 = (-5, 0) ∧
    (bus_read_fails (at_sec 10)).status2.2 &&& max8998_header.MAX8998_MASK_VDCIN = 0 ∧
    max8998_check_vdcin max8998_header (bus_read_fails (at_sec 10)) = true ∧
    s3c_usb_get_property max8998_header (bus_read_fails (at_sec 10))
      .POWER_SUPPLY_PROP_ONLINE 0 usb_reported = (0, 1) ∧
    s3c_ac_get_property max8998_header (bus_read_fails (at_sec 10))
      .POWER_SUPPLY_PROP_ONLINE 0 ac_reported = (0, 1) := by
  decide

end WaveCharger

namespace SemaAutobr

/-! ## The fade loops of instant_update -/

/-- The fade-in loop, given enough tests, ends one past the target: the last
test fails and still increments.  The last value shown is the target. -/
theorem fade_in_spec (n : Nat) : ∀ s : autobr,
    s.sa_info.current_br ≤ s.sa_info.update_br →
    s.sa_info.update_br - s.sa_info.current_br < n →
    s.sa_info.update_br < 4294967296 →
    (fade_in n s).sa_info.current_br = (s.sa_info.update_br + 1) % 4294967296 ∧
    (fade_in n s).sa_info.update_br = s.sa_info.update_br ∧
    (s.sa_info.current_br = s.sa_info.update_br → (fade_in n s).backlight = s.backlight) ∧
    (s.sa_info.current_br < s.sa_info.update_br →
      (fade_in n s).backlight.getLast? = some (int_of_uint s.sa_info.update_br)) := by
  induction n with
  | zero => intro s _ h _; omega
  | succ n ih =>
    intro s hle hfuel hu
    by_cases hlt : s.sa_info.current_br < s.sa_info.update_br
    · have hstep : fade_in (n + 1) s = fade_in n (bl_update_brightness (current_br_incr s)) := by
        simp only [fade_in, if_pos hlt]
      have hcur : (bl_update_brightness (current_br_incr s)).sa_info.current_br =
          s.sa_info.current_br + 1 := by
        show (s.sa_info.current_br + 1) % 4294967296 = s.sa_info.current_br + 1
        omega
      have hupd : (bl_update_brightness (current_br_incr s)).sa_info.update_br =
          s.sa_info.update_br := rfl
      have hbl : (bl_update_brightness (current_br_incr s)).backlight =
          s.backlight ++ [int_of_uint (s.sa_info.current_br + 1)] := by
        show s.backlight ++ [int_of_uint ((s.sa_info.current_br + 1) % 4294967296)] = _
        have : (s.sa_info.current_br + 1) % 4294967296 = s.sa_info.current_br + 1 := by omega
        rw [this]
      obtain ⟨h1, h2, h3, h4⟩ := ih (bl_update_brightness (current_br_incr s))
        (by rw [hcur, hupd]; omega) (by rw [hcur, hupd]; omega) (by rw [hupd]; exact hu)
      rw [hstep, hupd] at *
      refine ⟨h1, h2, fun h => absurd h (by omega), fun _ => ?_⟩
      by_cases hlast : s.sa_info.current_br + 1 = s.sa_info.update_br
      · rw [h3 (by rw [hcur]; exact hlast), hbl, hlast]
        simp
      · exact h4 (by rw [hcur]; omega)
    · have hstep : fade_in (n + 1) s = current_br_incr s := by
        simp only [fade_in, if_neg hlt]
      have heq : s.sa_info.current_br = s.sa_info.update_br := by omega
      rw [hstep]
      refine ⟨?_, rfl, fun _ => rfl, fun h => absurd h hlt⟩
      show (s.sa_info.current_br + 1) % 4294967296 = _
      rw [heq]

/-- The fade-out loop, given enough tests, ends one below the target: the
last test fails and still decrements.  The last value shown is the target. -/
theorem fade_out_spec (n : Nat) : ∀ s : autobr,
    s.sa_info.update_br ≤ s.sa_info.current_br →
    s.sa_info.current_br - s.sa_info.update_br < n →
    (fade_out n s).sa_info.current_br =
      (if s.sa_info.update_br = 0 then 4294967295 else s.sa_info.update_br - 1) ∧
    (fade_out n s).sa_info.update_br = s.sa_info.update_br ∧
    (s.sa_info.current_br = s.sa_info.update_br → (fade_out n s).backlight = s.backlight) ∧
    (s.sa_info.current_br > s.sa_info.update_br →
      (fade_out n s).backlight.getLast? = some (int_of_uint s.sa_info.update_br)) := by
  induction n with
  | zero => intro s _ h; omega
  | succ n ih =>
    intro s hle hfuel
    by_cases hlt : s.sa_info.current_br > s.sa_info.update_br
    · have hstep : fade_out (n + 1) s =
          fade_out n (bl_update_brightness (current_br_decr s)) := by
        simp only [fade_out, if_pos hlt]
      have hne : ¬ s.sa_info.current_br = 0 := by omega
      have hcur : (bl_update_brightness (current_br_decr s)).sa_info.current_br =
          s.sa_info.current_br - 1 := by
        simp only [bl_update_brightness, current_br_decr, if_neg hne]
      have hupd : (bl_update_brightness (current_br_decr s)).sa_info.update_br =
          s.sa_info.update_br := by
        simp only [bl_update_brightness, current_br_decr]
      have hbl : (bl_update_brightness (current_br_decr s)).backlight =
          s.backlight ++ [int_of_uint (s.sa_info.current_br - 1)] := by
        simp only [bl_update_brightness, current_br_decr, if_neg hne]
      obtain ⟨h1, h2, h3, h4⟩ := ih (bl_update_brightness (current_br_decr s))
        (by rw [hcur, hupd]; omega) (by rw [hcur, hupd]; omega)
      rw [hstep, hupd] at *
      refine ⟨h1, h2, fun h => absurd h (by omega), fun _ => ?_⟩
      by_cases hlast : s.sa_info.current_br - 1 = s.sa_info.update_br
      · rw [h3 (by rw [hcur]; exact hlast), hbl, hlast]
        simp
      · exact h4 (by rw [hcur]; omega)
    · have hstep : fade_out (n + 1) s = current_br_decr s := by
        simp only [fade_out, if_neg hlt]
      have heq : s.sa_info.current_br = s.sa_info.update_br := by omega
      rw [hstep]
      refine ⟨?_, ?_, fun _ => ?_, fun h => absurd h hlt⟩
      · simp only [current_br_decr, heq]
      · simp only [current_br_decr]
      · simp only [current_br_decr]

/-- What `instant_update` leaves in `current_br`: the target on the jump path,
one past the target after a fade in, one below the target after a fade out.
The last value handed to `bl_update_brightness` is the target on every path
that hands over a value at all. -/
theorem instant_update_result (s : autobr) (hu : s.sa_info.update_br < 4294967296) :
    (s.sa_tuners.effect_delay_ms < 0 →
      (instant_update s).sa_info.current_br = s.sa_info.update_br ∧
      (instant_update s).backlight.getLast? = some (int_of_uint s.sa_info.update_br)) ∧
    (s.sa_tuners.effect_delay_ms ≥ 0 → s.sa_info.current_br < s.sa_info.update_br →
      (instant_update s).sa_info.current_br = (s.sa_info.update_br + 1) % 4294967296 ∧
      (instant_update s).backlight.getLast? = some (int_of_uint s.sa_info.update_br)) ∧
    (s.sa_tuners.effect_delay_ms ≥ 0 → s.sa_info.current_br > s.sa_info.update_br →
      (instant_update s).sa_info.current_br =
        (if s.sa_info.update_br = 0 then 4294967295 else s.sa_info.update_br - 1) ∧
      (instant_update s).backlight.getLast? = some (int_of_uint s.sa_info.update_br)) ∧
    (s.sa_tuners.effect_delay_ms ≥ 0 → s.sa_info.current_br = s.sa_info.update_br →
      (instant_update s).sa_info.current_br =
        (if s.sa_info.update_br = 0 then 4294967295 else s.sa_info.update_br - 1) ∧
      (instant_update s).backlight = s.backlight) := by
  refine ⟨?_, ?_, ?_, ?_⟩
  · intro hd
    have hnd : ¬ s.sa_tuners.effect_delay_ms ≥ 0 := by omega
    unfold instant_update
    split_ifs <;> simp [bl_update_brightness]
  · intro hd hlt
    have e : instant_update s =
        fade_in (s.sa_info.update_br - s.sa_info.current_br + 1) s := by
      unfold instant_update
      rw [if_pos hlt, if_pos hd]
    obtain ⟨h1, -, -, h4⟩ := fade_in_spec (s.sa_info.update_br - s.sa_info.current_br + 1) s
      (by omega) (by omega) hu
    rw [e]
    exact ⟨h1, h4 hlt⟩
  · intro hd hgt
    have e : instant_update s =
        fade_out (s.sa_info.current_br - s.sa_info.update_br + 1) s := by
      unfold instant_update
      rw [if_neg (by omega), if_pos hd]
    obtain ⟨h1, -, -, h4⟩ := fade_out_spec (s.sa_info.current_br - s.sa_info.update_br + 1) s
      (by omega) (by omega)
    rw [e]
    exact ⟨h1, h4 hgt⟩
  · intro hd heq
    have e : instant_update s =
        fade_out (s.sa_info.current_br - s.sa_info.update_br + 1) s := by
      unfold instant_update
      rw [if_neg (by omega), if_pos hd]
    obtain ⟨h1, -, h3, -⟩ := fade_out_spec (s.sa_info.current_br - s.sa_info.update_br + 1) s
      (by omega) (by omega)
    rw [e]
    exact ⟨h1, h3 heq⟩

/-- C19, the code at the failing input: with the default tuners (fade delay
0), `instant_update` from brightness 120 to the target 160 hands 160 to
`bl_update_brightness` last and leaves `current_br` = 161; from 160 to the
target 120 it hands 120 over last and leaves `current_br` = 119. -/
theorem instant_update_misses_target :
    brighten_120_160.sa_tuners.effect_delay_ms ≥ 0 ∧
    (instant_update brighten_120_160).sa_info.update_br = 160 ∧
    (instant_update brighten_120_160).backlight.getLast? = some 160 ∧
    (instant_update brighten_120_160).sa_info.current_br = 161 ∧
    (instant_update dim_160_120).sa_info.update_br = 120 ∧
    (instant_update dim_160_120).backlight.getLast? = some 120 ∧
    (instant_update dim_160_120).sa_info.current_br = 119 := by
  decide

end SemaAutobr
